import Mathlib

/-!
Shallow embedding of the logistics CRUD service (FastAPI + SQLAlchemy over MySQL).

The database is a record of row lists plus auto-increment counters; each HTTP
handler from `app/api/*.py` becomes a Lean function from the database state and
the request data to the new database state and a result.  Exceptions are values:
`Exc.http` models a raised `HTTPException`, `Exc.integrity` a store-level
constraint violation surfaced at `commit`, and `Exc.fault` an injected
persistence failure (used to express "if any step fails").  Each handler mirrors
its source `try/except` structure: most handlers catch *every* exception
(including the `HTTPException`s they themselves raise) and re-wrap it through
`handle_db_error` into a 500 `database_error`; only the create/update handlers in
`returns.py` and `returns_details.py` have an `except HTTPException: raise`
clause that lets the 404 escape unchanged.

Machine integers of the source are unbounded Python ints; ids and quantities are
modelled as `Nat` (the validation layer enforces `gt=0` / `ge=0` on them).
`DATETIME` values compared against string literals (the date-range filters) are
kept as strings compared lexicographically, which matches MySQL's comparison on
canonically formatted `YYYY-MM-DD HH:MM:SS` values; other timestamps are `Nat`.
-/

/-! ## Enumerations (app/models/schemas.py) -/

inductive MetodoEnvioTipo
  | estandar
  | rapido
  | express
deriving DecidableEq, Repr

inductive BodegaTipo
  | small
  | large
  | large_non_sortable
deriving DecidableEq, Repr

inductive Puesto
  | operador
  | coordinador
  | transportista
deriving DecidableEq, Repr

inductive Area
  | bodega
  | devoluciones
  | soporte
deriving DecidableEq, Repr

inductive EstadoEnvioEstado
  | pendiente
  | en_ruta
  | entregado
  | devuelto
deriving DecidableEq, Repr

inductive DevolucionEstado
  | pendiente
  | enviado
  | recibido
deriving DecidableEq, Repr

/-! ## Table rows (app/models/models.py) -/

structure MetodoEnvioRow where
  metodo_envio_id : Nat
  tipo : MetodoEnvioTipo
  descripcion : String
  tiempo_estimado : Nat
  costo : Nat
deriving DecidableEq, Repr

structure BodegaRow where
  bodega_id : Nat
  direccion_bodega : String
  tipo : BodegaTipo
deriving DecidableEq, Repr

structure EmpleadoRow where
  empleado_id : Nat
  contrasena : String
  nombre : String
  apellido1 : String
  apellido2 : String
  telefono : String
  email : String
  puesto : Puesto
  area : Area
deriving DecidableEq, Repr

structure EnvioRow where
  envio_id : Nat
  pedido_id : Nat
  direccion_id : Nat
  metodo_envio_id : Nat
  fecha_envio : String
  fecha_estimada_entrega : Option String
  codigo_rastreo : Option String
deriving DecidableEq, Repr

structure EstadoEnvioRow where
  estado_envio_id : Nat
  envio_id : Nat
  estado : EstadoEnvioEstado
  descripcion : Option String
  fecha : Nat
  empleado_id : Option Nat
deriving DecidableEq, Repr

structure DevolucionRow where
  devolucion_id : Nat
  envio_id : Nat
  motivo : String
  fecha : Nat
  estado : DevolucionEstado
deriving DecidableEq, Repr

structure DevolucionDetalleRow where
  devolucion_detalle_id : Nat
  devolucion_id : Nat
  producto_id : Nat
  cantidad : Nat
deriving DecidableEq, Repr

structure LogBodegaRow where
  log_bodega_id : Nat
  producto_id : Nat
  cantidad : Nat
  fecha : Nat
  bodega_id : Nat
  empleado_id : Nat
deriving DecidableEq, Repr

/-- The relational store: one list per table plus the auto-increment counters of
the tables the embedded handlers insert into. -/
structure DB where
  metodos : List MetodoEnvioRow
  bodegas : List BodegaRow
  empleados : List EmpleadoRow
  envios : List EnvioRow
  estados : List EstadoEnvioRow
  devoluciones : List DevolucionRow
  detalles : List DevolucionDetalleRow
  logs : List LogBodegaRow
  next_envio_id : Nat
  next_estado_id : Nat
  next_devolucion_id : Nat
  next_detalle_id : Nat
  next_log_id : Nat
  next_empleado_id : Nat
deriving DecidableEq, Repr

def DB.findMetodo (db : DB) (id : Nat) : Option MetodoEnvioRow :=
  db.metodos.find? (fun m => m.metodo_envio_id == id)

def DB.findBodega (db : DB) (id : Nat) : Option BodegaRow :=
  db.bodegas.find? (fun b => b.bodega_id == id)

def DB.findEmpleado (db : DB) (id : Nat) : Option EmpleadoRow :=
  db.empleados.find? (fun e => e.empleado_id == id)

def DB.findEnvio (db : DB) (id : Nat) : Option EnvioRow :=
  db.envios.find? (fun e => e.envio_id == id)

def DB.findEnvioByCodigo (db : DB) (code : String) : Option EnvioRow :=
  db.envios.find? (fun e => e.codigo_rastreo == some code)

def DB.findDevolucion (db : DB) (id : Nat) : Option DevolucionRow :=
  db.devoluciones.find? (fun d => d.devolucion_id == id)

def DB.findDetalle (db : DB) (id : Nat) : Option DevolucionDetalleRow :=
  db.detalles.find? (fun d => d.devolucion_detalle_id == id)

/-! ## Error model (schemas.ErrorResponse and the per-module handle_db_error) -/

/-- The uniform error envelope: error kind, human message, optional detail
key/value pairs (detail values stringified). -/
structure ErrorDetail where
  error : String
  message : String
  details : Option (List (String × String))
deriving DecidableEq, Repr

/-- A raised `HTTPException`: status code plus the envelope passed as `detail`. -/
structure HTTPErrorResponse where
  status_code : Nat
  detail : ErrorDetail
deriving DecidableEq, Repr

/-- Exceptions a handler body can raise: an explicit `HTTPException`, a
store-level constraint violation at commit (`IntegrityError`), or an injected
persistence failure. -/
inductive Exc
  | http (e : HTTPErrorResponse)
  | integrity (msg : String)
  | fault (msg : String)
deriving DecidableEq, Repr

/-- Source `str(e)` of an exception, as embedded in `handle_db_error`'s
`internal_error` detail. -/
def excStr : Exc → String
  | .http e => toString e.status_code ++ ": error=" ++ e.detail.error ++ ", message=" ++ e.detail.message
  | .integrity m => m
  | .fault m => m

/-- Source `handle_db_error` (identical in every `app/api/*.py` module): logs and
raises a 500 `database_error` embedding the original exception's text. -/
def handle_db_error (e : Exc) (operation : String) : HTTPErrorResponse :=
  { status_code := 500
  , detail :=
    { error := "database_error"
    , message := "Error al " ++ operation ++ " en la base de datos"
    , details := some [("internal_error", excStr e)] } }

/-- A 404 `not_found` HTTPException with a single detail key. -/
def notFound (message : String) (key : String) (val : Nat) : Exc :=
  .http
    { status_code := 404
    , detail :=
      { error := "not_found"
      , message := message
      , details := some [(key, toString val)] } }

/-- What the handler sends back: a success payload or an error response. -/
inductive HandlerResult (α : Type)
  | ok (a : α)
  | err (e : HTTPErrorResponse)
deriving DecidableEq, Repr

def errStatus {α : Type} : HandlerResult α → Option Nat
  | .ok _ => none
  | .err e => some e.status_code

def errKind {α : Type} : HandlerResult α → Option String
  | .ok _ => none
  | .err e => some e.detail.error

/-! ## Response schemas (the public shapes built by the handlers) -/

/-- Source `schemas.Empleado`: exactly the eight public fields; the stored password
hash (`contrasena`) is not part of the schema. -/
structure EmpleadoSchema where
  empleado_id : Nat
  nombre : String
  apellido1 : String
  apellido2 : String
  telefono : String
  email : String
  puesto : Puesto
  area : Area
deriving DecidableEq, Repr

structure EnvioSchema where
  envio_id : Nat
  pedido_id : Nat
  direccion_id : Nat
  metodo_envio_id : Nat
  fecha_envio : String
  fecha_estimada_entrega : Option String
  codigo_rastreo : Option String
deriving DecidableEq, Repr

structure EstadoEnvioSchema where
  estado_envio_id : Nat
  envio_id : Nat
  estado : EstadoEnvioEstado
  descripcion : Option String
  fecha : Nat
  empleado_id : Option Nat
deriving DecidableEq, Repr

structure DevolucionSchema where
  devolucion_id : Nat
  envio_id : Nat
  motivo : String
  fecha : Nat
  estado : DevolucionEstado
deriving DecidableEq, Repr

structure DevolucionDetalleSchema where
  devolucion_detalle_id : Nat
  devolucion_id : Nat
  producto_id : Nat
  cantidad : Nat
deriving DecidableEq, Repr

structure LogBodegaSchema where
  log_bodega_id : Nat
  producto_id : Nat
  cantidad : Nat
  fecha : Nat
  bodega_id : Nat
  empleado_id : Nat
deriving DecidableEq, Repr

structure TokenSchema where
  access_token : String
  token_type : String
deriving DecidableEq, Repr

def empleadoToSchema (e : EmpleadoRow) : EmpleadoSchema :=
  { empleado_id := e.empleado_id, nombre := e.nombre, apellido1 := e.apellido1
  , apellido2 := e.apellido2, telefono := e.telefono, email := e.email
  , puesto := e.puesto, area := e.area }

def envioToSchema (e : EnvioRow) : EnvioSchema :=
  { envio_id := e.envio_id, pedido_id := e.pedido_id, direccion_id := e.direccion_id
  , metodo_envio_id := e.metodo_envio_id, fecha_envio := e.fecha_envio
  , fecha_estimada_entrega := e.fecha_estimada_entrega, codigo_rastreo := e.codigo_rastreo }

def estadoToSchema (s : EstadoEnvioRow) : EstadoEnvioSchema :=
  { estado_envio_id := s.estado_envio_id, envio_id := s.envio_id, estado := s.estado
  , descripcion := s.descripcion, fecha := s.fecha, empleado_id := s.empleado_id }

def devolucionToSchema (d : DevolucionRow) : DevolucionSchema :=
  { devolucion_id := d.devolucion_id, envio_id := d.envio_id, motivo := d.motivo
  , fecha := d.fecha, estado := d.estado }

def detalleToSchema (d : DevolucionDetalleRow) : DevolucionDetalleSchema :=
  { devolucion_detalle_id := d.devolucion_detalle_id, devolucion_id := d.devolucion_id
  , producto_id := d.producto_id, cantidad := d.cantidad }

def logToSchema (l : LogBodegaRow) : LogBodegaSchema :=
  { log_bodega_id := l.log_bodega_id, producto_id := l.producto_id, cantidad := l.cantidad
  , fecha := l.fecha, bodega_id := l.bodega_id, empleado_id := l.empleado_id }

/-! ## Request bodies (create / partial-update schemas) -/

structure EnvioCreate where
  pedido_id : Nat
  direccion_id : Nat
  metodo_envio_id : Nat
deriving DecidableEq, Repr

/-- Source `schemas.EnvioUpdate`: every field optional — including `codigo_rastreo`.
`none` models a field absent from the request body (pydantic `exclude_unset`). -/
structure EnvioUpdate where
  pedido_id : Option Nat
  direccion_id : Option Nat
  metodo_envio_id : Option Nat
  fecha_envio : Option String
  fecha_estimada_entrega : Option String
  codigo_rastreo : Option String
deriving DecidableEq, Repr

structure EmpleadoCreate where
  nombre : String
  apellido1 : String
  apellido2 : String
  telefono : String
  email : String
  puesto : Puesto
  area : Area
  contrasena : String
deriving DecidableEq, Repr

structure EmpleadoUpdate where
  nombre : Option String
  apellido1 : Option String
  apellido2 : Option String
  telefono : Option String
  email : Option String
  puesto : Option Puesto
  area : Option Area
  contrasena : Option String
deriving DecidableEq, Repr

structure EstadoEnvioCreate where
  envio_id : Nat
  estado : EstadoEnvioEstado
  descripcion : Option String
  empleado_id : Option Nat
deriving DecidableEq, Repr

structure DevolucionCreate where
  envio_id : Nat
  motivo : String
deriving DecidableEq, Repr

structure DevolucionDetalleCreate where
  devolucion_id : Nat
  producto_id : Nat
  cantidad : Nat
deriving DecidableEq, Repr

structure LogBodegaCreate where
  producto_id : Nat
  cantidad : Nat
  bodega_id : Nat
  empleado_id : Nat
deriving DecidableEq, Repr

/-! ## Small helpers shared by the handlers -/

/-- Python truthiness of an optional integer query parameter: `None` and `0`
are falsy, every other value truthy (`if param:` in the search handlers). -/
def truthyNat : Option Nat → Bool
  | none => false
  | some n => n != 0

/-- Python truthiness of an optional string query parameter: `None` and the
empty string are falsy. -/
def truthyStr : Option String → Bool
  | none => false
  | some s => s != ""

/-- Lexicographic comparison of character lists (MySQL's comparison of
canonically formatted datetime strings). -/
def charListLe : List Char → List Char → Bool
  | [], _ => true
  | _ :: _, [] => false
  | a :: as, b :: bs => if a < b then true else if b < a then false else charListLe as bs

def strLe (a b : String) : Bool := charListLe a.toList b.toList

/-- Source `column.ilike(%needle%)`: case-insensitive substring match. -/
def icontains (hay needle : String) : Bool :=
  let h := hay.toList.map Char.toLower
  let n := needle.toList.map Char.toLower
  (List.range (h.length + 1)).any (fun i => n.isPrefixOf (h.drop i))

/-- The repeated `if param: query = query.filter(...)` pattern of the search
handlers, for an optional integer parameter (Python truthiness: `None` and `0`
apply no filter). -/
def filterNatTruthy {α : Type} (q : List α) (param : Option Nat) (p : Nat → α → Bool) : List α :=
  if truthyNat param then q.filter (p (param.getD 0)) else q

/-- The same pattern for an optional string parameter (`None` and `""` apply
no filter). -/
def filterStrTruthy {α : Type} (q : List α) (param : Option String) (p : String → α → Bool) : List α :=
  match param with
  | some s => if s != "" then q.filter (p s) else q
  | none => q

/-- The same pattern for an optional enum parameter (enum members are always
truthy, so the filter applies exactly when the parameter is supplied). -/
def filterSome {α β : Type} (q : List α) (param : Option β) (p : β → α → Bool) : List α :=
  match param with
  | some b => q.filter (p b)
  | none => q

/-- Source `ORDER BY fecha DESC` on shipment statuses. -/
def fechaDesc (a b : EstadoEnvioRow) : Prop := b.fecha ≤ a.fecha

instance : DecidableRel fechaDesc := fun a b => Nat.decLe b.fecha a.fecha

instance : IsTotal EstadoEnvioRow fechaDesc :=
  ⟨fun a b => Nat.le_total b.fecha a.fecha⟩

instance : IsTrans EstadoEnvioRow fechaDesc :=
  ⟨fun _ _ _ h1 h2 => Nat.le_trans h2 h1⟩

/-- The tracking codes currently stored (non-null `codigo_rastreo` values). -/
def codes (l : List EnvioRow) : List String := l.filterMap (fun e => e.codigo_rastreo)

def uniqueCodes (db : DB) : Prop := (codes db.envios).Nodup

def uniqueIds (db : DB) : Prop := (db.envios.map (fun e => e.envio_id)).Nodup

/-- The session's modification of the loaded envio row, committed in place. -/
def replaceEnvio (l : List EnvioRow) (id : Nat) (r : EnvioRow) : List EnvioRow :=
  l.map (fun e => if e.envio_id == id then r else e)

def replaceEmpleado (l : List EmpleadoRow) (id : Nat) (r : EmpleadoRow) : List EmpleadoRow :=
  l.map (fun e => if e.empleado_id == id then r else e)

/-! ## Security helpers (app/utils/security.py, absent from the source tree) -/

/-- Modelled from the spec: `app/utils/security.py` is not under `src/` (only
its callers in `employee.py` are).  §4.4 describes verification as
hash-and-compare against the stored hash; the hash function itself stays
abstract (a parameter). -/
def verify_password (hashFn : String → String) (plain hashed : String) : Bool :=
  hashFn plain == hashed

/-! ## Shipment handlers (app/api/shipping.py) -/

/-- Source `generate_tracking_code`: 8 uppercase letters followed by 12 digits.  The
two arguments are the random oracle behind `random.choice`: the i-th letter is
`ascii_uppercase[fL i % 26]`, the i-th digit `digits[fD i % 10]`. -/
def ascii_uppercase : List Char := "ABCDEFGHIJKLMNOPQRSTUVWXYZ".toList

def string_digits : List Char := "0123456789".toList

def generate_tracking_code (fL fD : Nat → Nat) : String :=
  String.mk
    (((List.range 8).map (fun i => ascii_uppercase.getD (fL i % 26) 'A')) ++
     ((List.range 12).map (fun i => string_digits.getD (fD i % 10) '0')))

/-- The uniqueness retry loop of `create_shipping`: keep drawing candidate codes
until one matches no existing row.  `candidates` is the stream of generated
codes; `none` means the stream was exhausted with every candidate colliding
(the source loop would simply keep generating). -/
def pickTrackingCode (db : DB) (candidates : List String) : Option String :=
  candidates.find? (fun c => (db.findEnvioByCodigo c).isNone)

/-- The `models.Envio` row built by `create_shipping`: request fields plus the
generated code; `fecha_envio` from the store's `CURRENT_TIMESTAMP` default,
`fecha_estimada_entrega` left NULL. -/
def envioRowOf (db : DB) (envio : EnvioCreate) (now_envio : String) (code : String) : EnvioRow :=
  { envio_id := db.next_envio_id, pedido_id := envio.pedido_id
  , direccion_id := envio.direccion_id, metodo_envio_id := envio.metodo_envio_id
  , fecha_envio := now_envio, fecha_estimada_entrega := none
  , codigo_rastreo := some code }

/-- The initial `models.EstadoEnvio` row auto-inserted by `create_shipping`. -/
def estadoInicialOf (db1 : DB) (envio_id : Nat) (now_estado : Nat) : EstadoEnvioRow :=
  { estado_envio_id := db1.next_estado_id, envio_id := envio_id
  , estado := .pendiente
  , descripcion := some "Envío creado, pendiente de procesamiento"
  , fecha := now_estado, empleado_id := none }

/-- Source `create_shipping`: draws a fresh tracking code, inserts and **commits** the
`Envio` row, then inserts and commits the initial `EstadoEnvio` row — two
separate transactions.  `commit1_fails` / `commit2_fails` inject a persistence
failure at the respective commit; the first commit also enforces the store's
`metodo_envio_id` foreign key.  The catch-all `except` rolls back only the
pending (uncommitted) changes of the current transaction and answers through
`handle_db_error`.  The result is `none` when the candidate stream is exhausted
(the source's unbounded retry loop never returns in that case). -/
def create_shipping (db : DB) (envio : EnvioCreate) (candidates : List String)
    (now_envio : String) (now_estado : Nat) (commit1_fails commit2_fails : Bool) :
    Option (DB × HandlerResult EnvioSchema) :=
  match pickTrackingCode db candidates with
  | none => none
  | some tracking_code =>
    let db_envio := envioRowOf db envio now_envio tracking_code
    if commit1_fails then
      some (db, .err (handle_db_error (.fault "commit failed") "crear envío"))
    else if (db.findMetodo envio.metodo_envio_id).isNone then
      some (db, .err (handle_db_error
        (.integrity "FOREIGN KEY constraint fails (envio.metodo_envio_id)") "crear envío"))
    else
      let db1 : DB := { db with envios := db.envios ++ [db_envio]
                              , next_envio_id := db.next_envio_id + 1 }
      let db_estado := estadoInicialOf db1 db_envio.envio_id now_estado
      if commit2_fails then
        some (db1, .err (handle_db_error (.fault "commit failed") "crear envío"))
      else
        some ({ db1 with estados := db1.estados ++ [db_estado]
                       , next_estado_id := db1.next_estado_id + 1 }
             , .ok (envioToSchema db_envio))

/-- Source `get_shipping`: the 404 `HTTPException` raised for a missing id sits inside
the `try` block and is caught by the blanket `except Exception`, which re-wraps
it into a 500 `database_error`. -/
def get_shipping (db : DB) (envio_id : Nat) : HandlerResult EnvioSchema :=
  match db.findEnvio envio_id with
  | none =>
    .err (handle_db_error
      (notFound ("Envío con ID " ++ toString envio_id ++ " no encontrado") "envio_id" envio_id)
      "obtener envío")
  | some e => .ok (envioToSchema e)

/-- The `setattr` loop of `update_shipping` over `envio.dict(exclude_unset=True)`:
each supplied field overwrites the loaded row, absent fields keep their value. -/
def applyEnvioUpdate (row : EnvioRow) (u : EnvioUpdate) : EnvioRow :=
  { row with
    pedido_id := u.pedido_id.getD row.pedido_id
  , direccion_id := u.direccion_id.getD row.direccion_id
  , metodo_envio_id := u.metodo_envio_id.getD row.metodo_envio_id
  , fecha_envio := u.fecha_envio.getD row.fecha_envio
  , fecha_estimada_entrega :=
      match u.fecha_estimada_entrega with
      | some v => some v
      | none => row.fecha_estimada_entrega
  , codigo_rastreo :=
      match u.codigo_rastreo with
      | some v => some v
      | none => row.codigo_rastreo }

/-- Source `update_shipping`: load (missing → 404, swallowed into a 500 by the
catch-all), apply the supplied fields, commit.  The commit enforces the store's
constraints on the columns actually updated: the `metodo_envio_id` foreign key
and the `codigo_rastreo` UNIQUE constraint (`models.py`); a violation raises
`IntegrityError`, the handler rolls back and answers 500. -/
def update_shipping (db : DB) (envio_id : Nat) (u : EnvioUpdate) :
    DB × HandlerResult EnvioSchema :=
  match db.findEnvio envio_id with
  | none =>
    (db, .err (handle_db_error
      (notFound ("Envío con ID " ++ toString envio_id ++ " no encontrado") "envio_id" envio_id)
      "actualizar envío"))
  | some db_envio =>
    let updated := applyEnvioUpdate db_envio u
    if u.metodo_envio_id.isSome && (db.findMetodo updated.metodo_envio_id).isNone then
      (db, .err (handle_db_error
        (.integrity "FOREIGN KEY constraint fails (envio.metodo_envio_id)") "actualizar envío"))
    else if u.codigo_rastreo.isSome &&
        db.envios.any (fun e => e.envio_id != envio_id && e.codigo_rastreo == updated.codigo_rastreo) then
      (db, .err (handle_db_error
        (.integrity "UNIQUE constraint fails (envio.codigo_rastreo)") "actualizar envío"))
    else
      ({ db with envios := replaceEnvio db.envios envio_id updated }
      , .ok (envioToSchema updated))

/-- Source `delete_shipping`: load (missing → 404, swallowed into a 500), delete,
commit.  The store's foreign keys from `estado_envio.envio_id` and
`devolucion.envio_id` restrict the delete of a referenced shipment
(`IntegrityError` → rollback → 500). -/
def delete_shipping (db : DB) (envio_id : Nat) : DB × HandlerResult Unit :=
  match db.findEnvio envio_id with
  | none =>
    (db, .err (handle_db_error
      (notFound ("Envío con ID " ++ toString envio_id ++ " no encontrado") "envio_id" envio_id)
      "eliminar envío"))
  | some _ =>
    if db.estados.any (fun s => s.envio_id == envio_id) ||
       db.devoluciones.any (fun d => d.envio_id == envio_id) then
      (db, .err (handle_db_error
        (.integrity "FOREIGN KEY constraint fails (estado_envio/devolucion)") "eliminar envío"))
    else
      ({ db with envios := db.envios.filter (fun e => e.envio_id != envio_id) }, .ok ())

/-- Source `search_shippings_range`: all-`None` check (`is None`), then one
conditional filter per parameter using Python truthiness (`if param:`); date
bounds are expanded to full-day timestamps by string concatenation and compared
as strings; `codigo_rastreo` uses `ilike` (case-insensitive substring); a NULL
column value never satisfies a comparison. -/
def search_shippings_range (db : DB)
    (pedido_id direccion_id metodo_envio_id : Option Nat)
    (fecha_envio_desde fecha_envio_hasta fecha_estimada_desde fecha_estimada_hasta : Option String)
    (codigo_rastreo : Option String) (skip limit : Nat) :
    HandlerResult (List EnvioSchema) :=
  if pedido_id.isNone && direccion_id.isNone && metodo_envio_id.isNone &&
     codigo_rastreo.isNone && fecha_envio_desde.isNone && fecha_envio_hasta.isNone &&
     fecha_estimada_desde.isNone && fecha_estimada_hasta.isNone then
    .ok []
  else
    let q := db.envios
    let q := filterNatTruthy q pedido_id (fun n e => e.pedido_id == n)
    let q := filterNatTruthy q direccion_id (fun n e => e.direccion_id == n)
    let q := filterNatTruthy q metodo_envio_id (fun n e => e.metodo_envio_id == n)
    let q := filterStrTruthy q fecha_envio_desde (fun d e => strLe (d ++ " 00:00:00") e.fecha_envio)
    let q := filterStrTruthy q fecha_envio_hasta (fun d e => strLe e.fecha_envio (d ++ " 23:59:59"))
    let q := filterStrTruthy q fecha_estimada_desde (fun d e =>
      match e.fecha_estimada_entrega with
      | some f => strLe (d ++ " 00:00:00") f
      | none => false)
    let q := filterStrTruthy q fecha_estimada_hasta (fun d e =>
      match e.fecha_estimada_entrega with
      | some f => strLe f (d ++ " 23:59:59")
      | none => false)
    let q := filterStrTruthy q codigo_rastreo (fun c e =>
      match e.codigo_rastreo with
      | some s => icontains s c
      | none => false)
    .ok (((q.drop skip).take limit).map envioToSchema)

/-- Source `track_shipping`: resolve the shipment by tracking code (missing → 404,
swallowed into a 500 by the catch-all), then return its statuses ordered by
`fecha` descending. -/
def track_shipping (db : DB) (tracking_code : String) :
    HandlerResult (List EstadoEnvioSchema) :=
  match db.findEnvioByCodigo tracking_code with
  | none =>
    .err (handle_db_error
      (.http { status_code := 404
             , detail := { error := "not_found"
                         , message := "Código de rastreo " ++ tracking_code ++ " no encontrado"
                         , details := some [("tracking_code", tracking_code)] } })
      "rastrear envío")
  | some envio =>
    let estados := (db.estados.filter (fun s => s.envio_id == envio.envio_id)).insertionSort fechaDesc
    .ok (estados.map estadoToSchema)

/-! ## Employee handlers (app/api/employee.py) -/

/-- Source `get_employees`: paginated list mapped to the public schema. -/
def get_employees (db : DB) (skip limit : Nat) : HandlerResult (List EmpleadoSchema) :=
  .ok (((db.empleados.drop skip).take limit).map empleadoToSchema)

/-- Source `create_employee`: hashes the password (`security.get_password_hash`,
passed abstractly as `hashFn` since `app/utils/security.py` is absent from the
source tree), inserts, commits, and answers with the public schema. -/
def create_employee (db : DB) (empleado : EmpleadoCreate) (hashFn : String → String) :
    DB × HandlerResult EmpleadoSchema :=
  let row : EmpleadoRow :=
    { empleado_id := db.next_empleado_id, contrasena := hashFn empleado.contrasena
    , nombre := empleado.nombre, apellido1 := empleado.apellido1
    , apellido2 := empleado.apellido2, telefono := empleado.telefono
    , email := empleado.email, puesto := empleado.puesto, area := empleado.area }
  ({ db with empleados := db.empleados ++ [row]
           , next_empleado_id := db.next_empleado_id + 1 }
  , .ok (empleadoToSchema row))

/-- Source `get_employee`: the 404 for a missing id is raised inside the `try` block
and swallowed by the blanket `except Exception` into a 500 `database_error`. -/
def get_employee (db : DB) (empleado_id : Nat) : HandlerResult EmpleadoSchema :=
  match db.findEmpleado empleado_id with
  | none =>
    .err (handle_db_error
      (notFound ("Empleado con ID " ++ toString empleado_id ++ " no encontrado")
        "empleado_id" empleado_id)
      "obtener empleado")
  | some e => .ok (empleadoToSchema e)

/-- The `setattr` loop of `update_employee`; a supplied `contrasena` is hashed
before being stored. -/
def applyEmpleadoUpdate (row : EmpleadoRow) (u : EmpleadoUpdate) (hashFn : String → String) :
    EmpleadoRow :=
  { row with
    nombre := u.nombre.getD row.nombre
  , apellido1 := u.apellido1.getD row.apellido1
  , apellido2 := u.apellido2.getD row.apellido2
  , telefono := u.telefono.getD row.telefono
  , email := u.email.getD row.email
  , puesto := u.puesto.getD row.puesto
  , area := u.area.getD row.area
  , contrasena :=
      match u.contrasena with
      | some p => hashFn p
      | none => row.contrasena }

/-- Source `update_employee`: load (missing → 404, swallowed into a 500), apply the
supplied fields (hashing a supplied password), commit, return the public
schema of the updated row. -/
def update_employee (db : DB) (empleado_id : Nat) (u : EmpleadoUpdate)
    (hashFn : String → String) : DB × HandlerResult EmpleadoSchema :=
  match db.findEmpleado empleado_id with
  | none =>
    (db, .err (handle_db_error
      (notFound ("Empleado con ID " ++ toString empleado_id ++ " no encontrado")
        "empleado_id" empleado_id)
      "actualizar parcialmente empleado"))
  | some row =>
    let updated := applyEmpleadoUpdate row u hashFn
    ({ db with empleados := replaceEmpleado db.empleados empleado_id updated }
    , .ok (empleadoToSchema updated))

/-- Source `delete_employee`: load (missing → 404, swallowed into a 500), delete,
commit.  The store's foreign keys from `estado_envio.empleado_id` and
`log_bodega.empleado_id` restrict the delete of a referenced employee. -/
def delete_employee (db : DB) (empleado_id : Nat) : DB × HandlerResult Unit :=
  match db.findEmpleado empleado_id with
  | none =>
    (db, .err (handle_db_error
      (notFound ("Empleado con ID " ++ toString empleado_id ++ " no encontrado")
        "empleado_id" empleado_id)
      "eliminar empleado"))
  | some _ =>
    if db.estados.any (fun s => s.empleado_id == some empleado_id) ||
       db.logs.any (fun l => l.empleado_id == empleado_id) then
      (db, .err (handle_db_error
        (.integrity "FOREIGN KEY constraint fails (estado_envio/log_bodega)") "eliminar empleado"))
    else
      ({ db with empleados := db.empleados.filter (fun e => e.empleado_id != empleado_id) }
      , .ok ())

/-- Source `search_employees`: all-`None` check, then one conditional filter per
parameter; the string filters use `ilike` substring matching, `puesto` and
`area` exact enum equality (enum members are always truthy). -/
def search_employees (db : DB)
    (nombre apellido1 apellido2 email : Option String)
    (puesto : Option Puesto) (area : Option Area) (skip limit : Nat) :
    HandlerResult (List EmpleadoSchema) :=
  if nombre.isNone && apellido1.isNone && apellido2.isNone && email.isNone &&
     puesto.isNone && area.isNone then
    .ok []
  else
    let q := db.empleados
    let q := filterStrTruthy q nombre (fun s e => icontains e.nombre s)
    let q := filterStrTruthy q apellido1 (fun s e => icontains e.apellido1 s)
    let q := filterStrTruthy q apellido2 (fun s e => icontains e.apellido2 s)
    let q := filterStrTruthy q email (fun s e => icontains e.email s)
    let q := filterSome q puesto (fun p e => decide (e.puesto = p))
    let q := filterSome q area (fun a e => decide (e.area = a))
    .ok (((q.drop skip).take limit).map empleadoToSchema)

/-- Source `login_for_access_token`: look the employee up by email; a missing employee
or a failed password verification raises the *same* 401 `invalid_credentials`
HTTPException — which, being inside the `try` block, is caught by the blanket
`except Exception` and re-wrapped into a 500 `database_error`.  `vrfy` stands
for `security.verify_password` and `tokenFn` for `security.create_access_token`
(both in the absent `app/utils/security.py`). -/
def login401 : Exc :=
  .http { status_code := 401
        , detail := { error := "invalid_credentials"
                    , message := "Credenciales incorrectas"
                    , details := none } }

def login_for_access_token (db : DB) (email password : String)
    (vrfy : String → String → Bool) (tokenFn : String → String) :
    HandlerResult TokenSchema :=
  match db.empleados.find? (fun e => e.email == email) with
  | none => .err (handle_db_error login401 "iniciar sesión")
  | some empleado =>
    if vrfy password empleado.contrasena then
      .ok { access_token := tokenFn empleado.email, token_type := "bearer" }
    else
      .err (handle_db_error login401 "iniciar sesión")

/-! ## ShipmentStatus create (app/api/shipping_status.py) -/

/-- Source `create_shipping_status`: checks the parent shipment (missing → 404) and,
when a truthy `empleado_id` is supplied, the employee (missing → 404); both
404s are raised inside the `try` block and swallowed by the blanket
`except Exception` into a 500 `database_error` (this module has no
`except HTTPException: raise`).  On success the row is inserted and committed
(`fecha` from the store's `CURRENT_TIMESTAMP` default). -/
def create_shipping_status (db : DB) (estado : EstadoEnvioCreate) (now : Nat) :
    DB × HandlerResult EstadoEnvioSchema :=
  match db.findEnvio estado.envio_id with
  | none =>
    (db, .err (handle_db_error
      (notFound ("Envío con ID " ++ toString estado.envio_id ++ " no encontrado")
        "envio_id" estado.envio_id)
      "crear estado de envío"))
  | some _ =>
    if truthyNat estado.empleado_id &&
       (db.findEmpleado (estado.empleado_id.getD 0)).isNone then
      (db, .err (handle_db_error
        (notFound ("Empleado con ID " ++ toString (estado.empleado_id.getD 0) ++ " no encontrado")
          "empleado_id" (estado.empleado_id.getD 0))
        "crear estado de envío"))
    else
      let row : EstadoEnvioRow :=
        { estado_envio_id := db.next_estado_id, envio_id := estado.envio_id
        , estado := estado.estado, descripcion := estado.descripcion
        , fecha := now, empleado_id := estado.empleado_id }
      ({ db with estados := db.estados ++ [row], next_estado_id := db.next_estado_id + 1 }
      , .ok (estadoToSchema row))

/-! ## Return create (app/api/returns.py) -/

/-- Source `create_return`: checks the parent shipment; this handler *does* have an
`except HTTPException: raise` clause, so the 404 escapes unchanged.  On success
the row is inserted and committed (`fecha` from `CURRENT_TIMESTAMP`, `estado`
from the `'pendiente'` server default). -/
def create_return (db : DB) (devolucion : DevolucionCreate) (now : Nat) :
    DB × HandlerResult DevolucionSchema :=
  match db.findEnvio devolucion.envio_id with
  | none =>
    (db, .err
      { status_code := 404
      , detail := { error := "not_found"
                  , message := "Envío con ID " ++ toString devolucion.envio_id ++ " no encontrado"
                  , details := some [("envio_id", toString devolucion.envio_id)] } })
  | some _ =>
    let row : DevolucionRow :=
      { devolucion_id := db.next_devolucion_id, envio_id := devolucion.envio_id
      , motivo := devolucion.motivo, fecha := now, estado := .pendiente }
    ({ db with devoluciones := db.devoluciones ++ [row]
             , next_devolucion_id := db.next_devolucion_id + 1 }
    , .ok (devolucionToSchema row))

/-! ## ReturnLineItem handlers (app/api/returns_details.py) -/

/-- Source `create_return_detail`: checks the parent return; this handler has an
`except HTTPException: raise` clause, so the 404 escapes unchanged. -/
def create_return_detail (db : DB) (detalle : DevolucionDetalleCreate) :
    DB × HandlerResult DevolucionDetalleSchema :=
  match db.findDevolucion detalle.devolucion_id with
  | none =>
    (db, .err
      { status_code := 404
      , detail := { error := "not_found"
                  , message := "Devolución con ID " ++ toString detalle.devolucion_id ++ " no encontrada"
                  , details := some [("devolucion_id", toString detalle.devolucion_id)] } })
  | some _ =>
    let row : DevolucionDetalleRow :=
      { devolucion_detalle_id := db.next_detalle_id, devolucion_id := detalle.devolucion_id
      , producto_id := detalle.producto_id, cantidad := detalle.cantidad }
    ({ db with detalles := db.detalles ++ [row], next_detalle_id := db.next_detalle_id + 1 }
    , .ok (detalleToSchema row))

/-- Source `search_return_details`: all-`None` check (`is None`), then one conditional
filter per parameter using Python truthiness (`if param:`) — so a supplied `0`
(permitted by the `ge=0` validation on `cantidad`) applies no filter. -/
def search_return_details (db : DB) (devolucion_id producto_id cantidad : Option Nat)
    (skip limit : Nat) : HandlerResult (List DevolucionDetalleSchema) :=
  if devolucion_id.isNone && producto_id.isNone && cantidad.isNone then
    .ok []
  else
    let q := db.detalles
    let q := filterNatTruthy q devolucion_id (fun n d => d.devolucion_id == n)
    let q := filterNatTruthy q producto_id (fun n d => d.producto_id == n)
    let q := filterNatTruthy q cantidad (fun n d => d.cantidad == n)
    .ok (((q.drop skip).take limit).map detalleToSchema)

/-! ## WarehouseLog create (app/api/warehouse_log.py) -/

/-- Source `create_warehouse_log`: unlike every other child-entity create handler this
one performs *no* existence check on its parents (`bodega_id`, `empleado_id`);
it inserts directly and the store's foreign keys (`models.py`) reject a missing
parent at commit with an `IntegrityError`, which the catch-all `except` rolls
back and surfaces as a 500 `database_error`. -/
def create_warehouse_log (db : DB) (log : LogBodegaCreate) (now : Nat) :
    DB × HandlerResult LogBodegaSchema :=
  if (db.findBodega log.bodega_id).isNone || (db.findEmpleado log.empleado_id).isNone then
    (db, .err (handle_db_error
      (.integrity "FOREIGN KEY constraint fails (log_bodega)") "crear log de bodega"))
  else
    let row : LogBodegaRow :=
      { log_bodega_id := db.next_log_id, producto_id := log.producto_id
      , cantidad := log.cantidad, fecha := now
      , bodega_id := log.bodega_id, empleado_id := log.empleado_id }
    ({ db with logs := db.logs ++ [row], next_log_id := db.next_log_id + 1 }
    , .ok (logToSchema row))

/-! ## Derived definitions used by the claims -/

def isUpperLetter (c : Char) : Bool := decide ('A' ≤ c) && decide (c ≤ 'Z')

def isDigitChar (c : Char) : Bool := decide ('0' ≤ c) && decide (c ≤ '9')

/-- The documented shape `[A-Z]{8}[0-9]{12}` of a tracking code. -/
def matchesTrackingPattern (s : String) : Bool :=
  s.length == 20 && (s.toList.take 8).all isUpperLetter && (s.toList.drop 8).all isDigitChar

def HandlerResult.isOk {α : Type} : HandlerResult α → Bool
  | .ok _ => true
  | .err _ => false

/-- Running `create_shipping` over a sequence of requests, each with its own
candidate-code stream and timestamps (no injected faults). -/
def create_shipping_many (db : DB) (reqs : List (EnvioCreate × List String × String × Nat)) :
    Option (DB × List (HandlerResult EnvioSchema)) :=
  match reqs with
  | [] => some (db, [])
  | (req, cands, ne, ns) :: rest =>
    match create_shipping db req cands ne ns false false with
    | none => none
    | some (db1, r) =>
      match create_shipping_many db1 rest with
      | none => none
      | some (db2, rs) => some (db2, r :: rs)

/-- Spec-side exact match of an optional numeric filter against a field. -/
def optMatch (o : Option Nat) (v : Nat) : Bool :=
  match o with
  | none => true
  | some n => v == n

/-! ## Concrete fixtures for the witnesses and counterexamples -/

def emptyDB : DB :=
  { metodos := [], bodegas := [], empleados := [], envios := [], estados := []
  , devoluciones := [], detalles := [], logs := []
  , next_envio_id := 1, next_estado_id := 1, next_devolucion_id := 1
  , next_detalle_id := 1, next_log_id := 1, next_empleado_id := 1 }

def metodo1 : MetodoEnvioRow :=
  { metodo_envio_id := 1, tipo := .estandar, descripcion := "Envio terrestre", tiempo_estimado := 3, costo := 100 }

def empleadoAna : EmpleadoRow :=
  { empleado_id := 1, contrasena := "h:secreta1", nombre := "Ana", apellido1 := "Lopez"
  , apellido2 := "Diaz", telefono := "5512345678", email := "ana@empresa.com"
  , puesto := .coordinador, area := .bodega }

def envioA : EnvioRow :=
  { envio_id := 1, pedido_id := 1, direccion_id := 1, metodo_envio_id := 1
  , fecha_envio := "2025-01-01 00:00:00", fecha_estimada_entrega := none
  , codigo_rastreo := some "AAAAAAAA000000000000" }

/-- Store with one shipping method only (C2). -/
def dbMetodo : DB := { emptyDB with metodos := [metodo1] }

/-- Store with one employee only (C3, C4). -/
def dbAna : DB := { emptyDB with empleados := [empleadoAna], next_empleado_id := 2 }

/-- Store with one shipment (C5, C7). -/
def dbEnvioA : DB :=
  { emptyDB with metodos := [metodo1], envios := [envioA], next_envio_id := 2 }

/-- Store with one shipment, one employee and three statuses recorded at times
1 < 2 < 3, inserted in chronological order (C7, C8). -/
def estadoT1 : EstadoEnvioRow :=
  { estado_envio_id := 1, envio_id := 1, estado := .pendiente, descripcion := none
  , fecha := 1, empleado_id := none }

def estadoT2 : EstadoEnvioRow :=
  { estado_envio_id := 2, envio_id := 1, estado := .en_ruta, descripcion := none
  , fecha := 2, empleado_id := none }

def estadoT3 : EstadoEnvioRow :=
  { estado_envio_id := 3, envio_id := 1, estado := .entregado, descripcion := none
  , fecha := 3, empleado_id := none }

def dbTrack : DB :=
  { emptyDB with
      metodos := [metodo1], envios := [envioA], empleados := [empleadoAna]
    , estados := [estadoT1, estadoT2, estadoT3]
    , next_envio_id := 2, next_estado_id := 4, next_empleado_id := 2 }

/-- Store with a single return line item of quantity 5 (C9). -/
def detalle5 : DevolucionDetalleRow :=
  { devolucion_detalle_id := 1, devolucion_id := 1, producto_id := 7, cantidad := 5 }

def dbDetalle : DB := { emptyDB with detalles := [detalle5], next_detalle_id := 2 }

/-- Requests referencing absent parents (C1, evaluated on `emptyDB`). -/
def estadoMissing : EstadoEnvioCreate :=
  { envio_id := 3, estado := .pendiente, descripcion := none, empleado_id := none }

def devolucionMissing : DevolucionCreate := { envio_id := 3, motivo := "Producto incorrecto" }

def detalleMissing : DevolucionDetalleCreate := { devolucion_id := 3, producto_id := 1, cantidad := 1 }

def logMissing : LogBodegaCreate := { producto_id := 1, cantidad := 1, bodega_id := 3, empleado_id := 3 }

/-- A client-chosen tracking code sent through `EnvioUpdate` (C5). -/
def updateClientCode : EnvioUpdate :=
  { pedido_id := none, direccion_id := none, metodo_envio_id := none
  , fecha_envio := none, fecha_estimada_entrega := none
  , codigo_rastreo := some "ZZZZZZZZ999999999999" }

/-- A partial update touching only `pedido_id` (C7). -/
def updateOnlyPedido : EnvioUpdate :=
  { pedido_id := some 9, direccion_id := none, metodo_envio_id := none
  , fecha_envio := none, fecha_estimada_entrega := none, codigo_rastreo := none }

/-- A partial update touching only `nombre` (C7). -/
def updateOnlyNombre : EmpleadoUpdate :=
  { nombre := some "Maria", apellido1 := none, apellido2 := none, telefono := none
  , email := none, puesto := none, area := none, contrasena := none }

/-- Two create requests whose candidate streams force the collision-retry loop
on the second create (C6): the first candidate of the second request equals the
code already stored by the first. -/
def reqEnvio : EnvioCreate := { pedido_id := 1, direccion_id := 1, metodo_envio_id := 1 }

def reqsTwo : List (EnvioCreate × List String × String × Nat) :=
  [ (reqEnvio, ["AAAAAAAA000000000000"], "2025-01-01 00:00:00", 1)
  , (reqEnvio, ["AAAAAAAA000000000000", "BBBBBBBB111111111111"], "2025-01-02 00:00:00", 2) ]

/-- A database state that differs from `db` only in the stored password hashes:
every employee's `contrasena` is replaced by `f e`, all other columns and all
other tables unchanged. -/
def scrubEmpleados (f : EmpleadoRow → String) (db : DB) : DB :=
  { db with empleados := db.empleados.map (fun e => { e with contrasena := f e }) }

/-- The store after one successful `create_shipping` on `dbMetodo` (the created
shipment row equals `envioA`). -/
def dbAfterCreate : DB :=
  { dbMetodo with
      envios := [envioA]
    , estados := [{ estado_envio_id := 1, envio_id := 1, estado := .pendiente
                  , descripcion := some "Envío creado, pendiente de procesamiento"
                  , fecha := 1, empleado_id := none }]
    , next_envio_id := 2, next_estado_id := 2 }

/-- The store and responses after running the two creates of `reqsTwo`. -/
def dbAfterTwo : DB := ((create_shipping_many dbMetodo reqsTwo).getD (emptyDB, [])).fst

def rsAfterTwo : List (HandlerResult EnvioSchema) :=
  ((create_shipping_many dbMetodo reqsTwo).getD (emptyDB, [])).snd

/-- A demonstration hash function for the concrete login evaluations. -/
def hashDemo : String → String := fun s => "h:" ++ s

/-- A demonstration token builder for the concrete login evaluations. -/
def tokenDemo : String → String := fun e => "tok:" ++ e

/-!
## Claim theorems

Each claim of the specification gets one theorem below (with a witness when the
theorem has hypotheses, and a counterexample when the claim fails as stated).
-/

/-- Claim C3 (code bug): both `get_shipping` and `get_employee` document a 404
`not_found` for a missing id, but the `HTTPException(404)` they raise sits
inside the `try` block and the blanket `except Exception` re-wraps it through
`handle_db_error` into a 500 `database_error`.  Consequently delete followed by
get-by-id on the same id yields that 500, not the documented not-found.  This
theorem evaluates the handlers at the failing inputs. -/
theorem c3_get_missing_returns_500 :
    errStatus (get_shipping emptyDB 1) = some 500 ∧
    errKind (get_shipping emptyDB 1) = some "database_error" ∧
    errStatus (get_shipping emptyDB 1) ≠ some 404 ∧
    errKind (get_shipping emptyDB 1) ≠ some "not_found" ∧
    errStatus (get_employee emptyDB 1) = some 500 ∧
    errKind (get_employee emptyDB 1) = some "database_error" ∧
    (delete_employee dbAna 1).snd = .ok () ∧
    errStatus (get_employee (delete_employee dbAna 1).fst 1) = some 500 ∧
    errKind (get_employee (delete_employee dbAna 1).fst 1) = some "database_error" := by
  decide

/-- Claim C4 (code bug): a login with an existing email and a wrong password
and a login with a nonexistent email produce byte-identical error responses
(both raise the same 401 `invalid_credentials` exception), but that exception
is caught by the handler's blanket `except Exception` and surfaces as a 500
`database_error`, not the documented 401.  The third conjunct checks that the
same store does authenticate the correct password, so the failure is genuinely
the credentials. -/
theorem c4_login_failures_identical_but_500 :
    login_for_access_token dbAna "ana@empresa.com" "incorrecta" (verify_password hashDemo) tokenDemo =
      login_for_access_token dbAna "nadie@empresa.com" "loquesea" (verify_password hashDemo) tokenDemo ∧
    errStatus (login_for_access_token dbAna "ana@empresa.com" "incorrecta" (verify_password hashDemo) tokenDemo) = some 500 ∧
    errKind (login_for_access_token dbAna "ana@empresa.com" "incorrecta" (verify_password hashDemo) tokenDemo) = some "database_error" ∧
    errStatus (login_for_access_token dbAna "ana@empresa.com" "incorrecta" (verify_password hashDemo) tokenDemo) ≠ some 401 ∧
    login_for_access_token dbAna "ana@empresa.com" "secreta1" (verify_password hashDemo) tokenDemo =
      .ok { access_token := "tok:ana@empresa.com", token_type := "bearer" } := by
  decide

/-- Claim C1, counterexample: creating a WarehouseLog whose `bodega_id` and
`empleado_id` reference no existing row does *not* fail with a 404 `not_found`
— the handler performs no existence check, the store's foreign-key constraint
rejects the insert at commit, and the catch-all surfaces a 500
`database_error` (the store is left unchanged). -/
theorem c1_counterexample :
    (create_warehouse_log emptyDB logMissing 0).fst = emptyDB ∧
    errStatus (create_warehouse_log emptyDB logMissing 0).snd = some 500 ∧
    errKind (create_warehouse_log emptyDB logMissing 0).snd = some "database_error" ∧
    errStatus (create_warehouse_log emptyDB logMissing 0).snd ≠ some 404 ∧
    errKind (create_warehouse_log emptyDB logMissing 0).snd ≠ some "not_found" := by
  decide

/-- Claim C2, counterexample: `create_shipping` commits the `Envio` row in a
first transaction and only then inserts the initial status.  When the second
commit fails, the handler reports a 500 — yet the `Envio` row is already
durable and no status row exists: partial state remains, so the two-step write
is not a single rolled-back transaction. -/
theorem c2_counterexample :
    dbMetodo.envios = [] ∧ dbMetodo.estados = [] ∧
    (create_shipping dbMetodo reqEnvio ["AAAAAAAA000000000000"] "2025-01-01 00:00:00" 1 false true).map
        (fun p => (p.fst.envios, p.fst.estados, errStatus p.snd)) =
      some ([envioRowOf dbMetodo reqEnvio "2025-01-01 00:00:00" "AAAAAAAA000000000000"], [], some 500) := by
  decide

/-- Claim C5, counterexample: `schemas.EnvioUpdate` exposes `codigo_rastreo`
and `update_shipping` writes every supplied field, so a client can set the
stored tracking code of shipment 1 to a value of its own choosing. -/
theorem c5_counterexample :
    updateClientCode.codigo_rastreo = some "ZZZZZZZZ999999999999" ∧
    (update_shipping dbEnvioA 1 updateClientCode).snd =
      .ok { envio_id := 1, pedido_id := 1, direccion_id := 1, metodo_envio_id := 1
          , fecha_envio := "2025-01-01 00:00:00", fecha_estimada_entrega := none
          , codigo_rastreo := some "ZZZZZZZZ999999999999" } ∧
    (update_shipping dbEnvioA 1 updateClientCode).fst.findEnvio 1 =
      some { envioA with codigo_rastreo := some "ZZZZZZZZ999999999999" } := by
  decide

/-- Claim C9, counterexample: `search_return_details` guards every numeric
filter with Python truthiness (`if cantidad:`), so the permitted value `0`
(`ge=0`) applies no filter at all: searching with `cantidad=0` returns the
stored line item whose `cantidad` is 5 instead of only rows with quantity 0. -/
theorem c9_counterexample :
    dbDetalle.detalles = [detalle5] ∧ detalle5.cantidad = 5 ∧
    search_return_details dbDetalle none none (some 0) 0 100 = .ok [detalleToSchema detalle5] := by
  decide

/-! ## Shared lemmas about the conditional-filter combinators -/

theorem filterNatTruthy_none {α : Type} (q : List α) (p : Nat → α → Bool) :
    filterNatTruthy q none p = q := rfl

theorem filterNatTruthy_pos {α : Type} (q : List α) (n : Nat) (hn : n ≠ 0) (p : Nat → α → Bool) :
    filterNatTruthy q (some n) p = q.filter (p n) := by
  unfold filterNatTruthy truthyNat
  simp [hn]

theorem filterStrTruthy_none {α : Type} (q : List α) (p : String → α → Bool) :
    filterStrTruthy q none p = q := rfl

theorem filterStrTruthy_some {α : Type} (q : List α) (s : String) (hs : s ≠ "")
    (p : String → α → Bool) : filterStrTruthy q (some s) p = q.filter (p s) := by
  unfold filterStrTruthy
  simp [bne_iff_ne, hs]

theorem filterStrTruthy_map_comm {α : Type} (l : List α) (g : α → α) (param : Option String)
    (p : String → α → Bool) (hp : ∀ s e, p s (g e) = p s e) :
    filterStrTruthy (l.map g) param p = (filterStrTruthy l param p).map g := by
  cases param with
  | none => rfl
  | some s =>
    by_cases hs : (s != "") = true
    · simp only [filterStrTruthy, if_pos hs, List.filter_map]
      congr 1
      apply List.filter_congr
      intro e _
      exact hp s e
    · simp only [filterStrTruthy, if_neg hs]

theorem filterSome_map_comm {α β : Type} (l : List α) (g : α → α) (param : Option β)
    (p : β → α → Bool) (hp : ∀ b e, p b (g e) = p b e) :
    filterSome (l.map g) param p = (filterSome l param p).map g := by
  cases param with
  | none => rfl
  | some b =>
    simp only [filterSome, List.filter_map]
    congr 1
    apply List.filter_congr
    intro e _
    exact hp b e

/-- Looking an employee up in a password-scrubbed store finds the scrubbed
version of the same row. -/
theorem findEmpleado_scrub (db : DB) (f : EmpleadoRow → String) (id : Nat) :
    (scrubEmpleados f db).findEmpleado id =
      (db.findEmpleado id).map (fun e => { e with contrasena := f e }) := by
  unfold scrubEmpleados DB.findEmpleado
  rw [List.find?_map]
  rfl

/-! ## Shared lemmas about stored tracking codes -/

theorem mem_codes_replace (t : List EnvioRow) (id : Nat) (merged : EnvioRow) (x : String)
    (hx : x ∈ codes (replaceEnvio t id merged)) :
    x ∈ codes t ∨ merged.codigo_rastreo = some x := by
  unfold codes replaceEnvio at hx
  rw [List.mem_filterMap] at hx
  obtain ⟨e, he, hcode⟩ := hx
  rw [List.mem_map] at he
  obtain ⟨orig, horig, heq⟩ := he
  by_cases hid : (orig.envio_id == id) = true
  · right
    rw [if_pos hid] at heq
    rw [heq]
    exact hcode
  · left
    rw [if_neg hid] at heq
    exact List.mem_filterMap.mpr ⟨orig, horig, by rw [heq]; exact hcode⟩

theorem codes_unique_owner (l : List EnvioRow) (hcodes : (codes l).Nodup)
    (old : EnvioRow) (hold : old ∈ l) (c : String) (hc : old.codigo_rastreo = some c) :
    ∀ e ∈ l, e.codigo_rastreo = some c → e.envio_id = old.envio_id := by
  induction l with
  | nil => cases hold
  | cons a t ih =>
    have hcodes_t : (codes t).Nodup := by
      cases hca : a.codigo_rastreo with
      | none => simpa [codes, List.filterMap_cons, hca] using hcodes
      | some ca =>
        exact (List.nodup_cons.mp (by simpa [codes, List.filterMap_cons, hca] using hcodes)).2
    intro e he hec
    rcases List.mem_cons.mp hold with hoa | hot
    · rcases List.mem_cons.mp he with hea | het
      · rw [hea, hoa]
      · exfalso
        subst hoa
        have hcl : codes (old :: t) = c :: codes t := by
          simp [codes, List.filterMap_cons, hc]
        rw [hcl] at hcodes
        exact (List.nodup_cons.mp hcodes).1 (List.mem_filterMap.mpr ⟨e, het, hec⟩)
    · rcases List.mem_cons.mp he with hea | het
      · exfalso
        subst hea
        have hcl : codes (e :: t) = c :: codes t := by
          simp [codes, List.filterMap_cons, hec]
        rw [hcl] at hcodes
        exact (List.nodup_cons.mp hcodes).1 (List.mem_filterMap.mpr ⟨old, hot, hc⟩)
      · exact ih hcodes_t hot e het hec

theorem nodup_codes_replace (l : List EnvioRow) (id : Nat) (merged : EnvioRow)
    (hids : (l.map (fun e => e.envio_id)).Nodup)
    (hcodes : (codes l).Nodup)
    (hnew : ∀ e ∈ l, e.envio_id ≠ id →
      e.codigo_rastreo ≠ merged.codigo_rastreo ∨ merged.codigo_rastreo = none) :
    (codes (replaceEnvio l id merged)).Nodup := by
  induction l with
  | nil => simp [replaceEnvio, codes]
  | cons a t ih =>
    have hids_t : (t.map (fun e => e.envio_id)).Nodup := (List.nodup_cons.mp hids).2
    have hcodes_t : (codes t).Nodup := by
      cases hca : a.codigo_rastreo with
      | none => simpa [codes, List.filterMap_cons, hca] using hcodes
      | some ca =>
        exact (List.nodup_cons.mp (by simpa [codes, List.filterMap_cons, hca] using hcodes)).2
    by_cases hid : (a.envio_id == id) = true
    · have haid : a.envio_id = id := beq_iff_eq.mp hid
      have hnot : ∀ e ∈ t, e.envio_id ≠ id := by
        intro e het heq
        have hmem : a.envio_id ∈ t.map (fun e => e.envio_id) := by
          rw [List.mem_map]
          exact ⟨e, het, by rw [heq, haid]⟩
        exact (List.nodup_cons.mp hids).1 hmem
      have htt : replaceEnvio t id merged = t := by
        unfold replaceEnvio
        have hstep : ∀ e ∈ t, (if e.envio_id == id then merged else e) = e := by
          intro e het
          rw [if_neg]
          intro hbeq
          exact hnot e het (beq_iff_eq.mp hbeq)
        exact (List.map_congr_left hstep).trans (List.map_id t)
      have hrw : replaceEnvio (a :: t) id merged = merged :: t := by
        unfold replaceEnvio at htt ⊢
        simp only [List.map_cons, if_pos hid, htt]
      rw [hrw]
      cases hm : merged.codigo_rastreo with
      | none => simpa [codes, List.filterMap_cons, hm] using hcodes_t
      | some c =>
        have hcl : codes (merged :: t) = c :: codes t := by
          simp [codes, List.filterMap_cons, hm]
        rw [hcl, List.nodup_cons]
        refine ⟨?_, hcodes_t⟩
        intro hcmem
        obtain ⟨e, het, hec⟩ := List.mem_filterMap.mp hcmem
        rcases hnew e (List.mem_cons_of_mem a het) (hnot e het) with hne | hnone
        · exact hne (by rw [hec, hm])
        · rw [hnone] at hm
          cases hm
    · have haid : a.envio_id ≠ id := by
        intro h
        exact hid (by rw [h]; simp)
      have hrec : (codes (replaceEnvio t id merged)).Nodup :=
        ih hids_t hcodes_t (fun e het hne => hnew e (List.mem_cons_of_mem a het) hne)
      have hrw : replaceEnvio (a :: t) id merged = a :: replaceEnvio t id merged := by
        unfold replaceEnvio
        simp only [List.map_cons, if_neg hid]
      rw [hrw]
      cases hca : a.codigo_rastreo with
      | none => simpa [codes, List.filterMap_cons, hca] using hrec
      | some ca =>
        have hcl : codes (a :: replaceEnvio t id merged) = ca :: codes (replaceEnvio t id merged) := by
          simp [codes, List.filterMap_cons, hca]
        rw [hcl, List.nodup_cons]
        refine ⟨?_, hrec⟩
        intro hmem
        rcases mem_codes_replace t id merged ca hmem with hin | hmc
        · have hcl2 : codes (a :: t) = ca :: codes t := by
            simp [codes, List.filterMap_cons, hca]
          rw [hcl2] at hcodes
          exact (List.nodup_cons.mp hcodes).1 hin
        · rcases hnew a (List.mem_cons_self a t) haid with hne | hnone
          · exact hne (by rw [hca, hmc])
          · rw [hnone] at hmc
            cases hmc

/-- A freshly drawn code appended to the store keeps the stored codes nodup. -/
theorem nodup_codes_append (l : List EnvioRow) (row : EnvioRow) (c : String)
    (hl : (codes l).Nodup) (hrow : row.codigo_rastreo = some c)
    (hfresh : ∀ e ∈ l, e.codigo_rastreo ≠ some c) :
    (codes (l ++ [row])).Nodup := by
  have hcl : codes (l ++ [row]) = codes l ++ [c] := by
    unfold codes
    rw [List.filterMap_append]
    simp [List.filterMap_cons, hrow]
  rw [hcl, List.nodup_append]
  refine ⟨hl, List.nodup_singleton c, ?_⟩
  intro x hx hx1
  rw [List.mem_singleton] at hx1
  subst hx1
  obtain ⟨e, he, hec⟩ := List.mem_filterMap.mp hx
  exact hfresh e he hec

/-- One `create_shipping` run (no injected faults): the stored codes stay
pairwise distinct, a successful run adds exactly one shipment row, and a
failed run leaves the store unchanged. -/
theorem create_shipping_preserves_unique (db : DB) (req : EnvioCreate) (cands : List String)
    (ne : String) (ns : Nat) (db1 : DB) (r : HandlerResult EnvioSchema)
    (h : create_shipping db req cands ne ns false false = some (db1, r))
    (hu : uniqueCodes db) :
    uniqueCodes db1 ∧
    (r.isOk = true → db1.envios.length = db.envios.length + 1) ∧
    (r.isOk = false → db1 = db) := by
  unfold create_shipping at h
  cases hpick : pickTrackingCode db cands with
  | none => rw [hpick] at h; cases h
  | some code =>
    rw [hpick] at h
    simp only [Bool.false_eq_true, if_false] at h
    by_cases hm : (db.findMetodo req.metodo_envio_id).isNone = true
    · rw [if_pos hm] at h
      obtain ⟨hdb, hr⟩ := Prod.mk.injEq .. ▸ Option.some.inj h
      constructor
      · rw [← hdb]; exact hu
      · constructor
        · intro hok
          rw [← hr] at hok
          cases hok
        · intro _
          rw [← hdb]
    · rw [if_neg hm] at h
      obtain ⟨hdb, hr⟩ := Prod.mk.injEq .. ▸ Option.some.inj h
      have hfresh : ∀ e ∈ db.envios, e.codigo_rastreo ≠ some code := by
        have hnone : db.findEnvioByCodigo code = none := by
          have := List.find?_some hpick
          simpa [Option.isNone_iff_eq_none] using this
        intro e he hec
        have := List.find?_eq_none.mp hnone e he
        apply this
        rw [hec]
        simp
      constructor
      · rw [← hdb]
        unfold uniqueCodes
        exact nodup_codes_append db.envios (envioRowOf db req ne code) code hu rfl hfresh
      · constructor
        · intro _
          rw [← hdb]
          simp
        · intro hnotok
          rw [← hr] at hnotok
          cases hnotok

/-! ## Shared lemmas about the tracking-code generator -/

theorem ascii_uppercase_upper (k : Nat) :
    isUpperLetter (ascii_uppercase.getD (k % 26) 'A') = true := by
  have hlen : ascii_uppercase.length = 26 := by decide
  have hk : k % 26 < ascii_uppercase.length := by
    rw [hlen]
    exact Nat.mod_lt _ (by decide)
  rw [List.getD_eq_get ascii_uppercase 'A' hk]
  have hall : ∀ i : Fin ascii_uppercase.length, isUpperLetter (ascii_uppercase.get i) = true := by
    decide
  exact hall ⟨k % 26, hk⟩

theorem string_digits_digit (k : Nat) :
    isDigitChar (string_digits.getD (k % 10) '0') = true := by
  have hlen : string_digits.length = 10 := by decide
  have hk : k % 10 < string_digits.length := by
    rw [hlen]
    exact Nat.mod_lt _ (by decide)
  rw [List.getD_eq_get string_digits '0' hk]
  have hall : ∀ i : Fin string_digits.length, isDigitChar (string_digits.get i) = true := by
    decide
  exact hall ⟨k % 10, hk⟩

theorem generate_tracking_code_pattern (fL fD : Nat → Nat) :
    matchesTrackingPattern (generate_tracking_code fL fD) = true := by
  unfold generate_tracking_code matchesTrackingPattern
  have hAlen : ((List.range 8).map (fun i => ascii_uppercase.getD (fL i % 26) 'A')).length = 8 := by
    simp
  have htake :
      (((List.range 8).map (fun i => ascii_uppercase.getD (fL i % 26) 'A')) ++
        ((List.range 12).map (fun i => string_digits.getD (fD i % 10) '0'))).take 8 =
      (List.range 8).map (fun i => ascii_uppercase.getD (fL i % 26) 'A') :=
    List.take_left' hAlen
  have hdrop :
      (((List.range 8).map (fun i => ascii_uppercase.getD (fL i % 26) 'A')) ++
        ((List.range 12).map (fun i => string_digits.getD (fD i % 10) '0'))).drop 8 =
      (List.range 12).map (fun i => string_digits.getD (fD i % 10) '0') :=
    List.drop_left' hAlen
  have hup : ((List.range 8).map (fun i => ascii_uppercase.getD (fL i % 26) 'A')).all isUpperLetter = true := by
    rw [List.all_eq_true]
    intro x hx
    rw [List.mem_map] at hx
    obtain ⟨i, _, rfl⟩ := hx
    exact ascii_uppercase_upper (fL i)
  have hdig : ((List.range 12).map (fun i => string_digits.getD (fD i % 10) '0')).all isDigitChar = true := by
    rw [List.all_eq_true]
    intro x hx
    rw [List.mem_map] at hx
    obtain ⟨i, _, rfl⟩ := hx
    exact string_digits_digit (fD i)
  have hlist : (String.mk
      (((List.range 8).map (fun i => ascii_uppercase.getD (fL i % 26) 'A')) ++
       ((List.range 12).map (fun i => string_digits.getD (fD i % 10) '0')))).toList =
      ((List.range 8).map (fun i => ascii_uppercase.getD (fL i % 26) 'A')) ++
      ((List.range 12).map (fun i => string_digits.getD (fD i % 10) '0')) := rfl
  rw [hlist, htake, hdrop, hup, hdig]
  simp [String.length]

/-- Claim C1 (amended): creating a Return or a ReturnLineItem with a missing
parent fails with a 404 `not_found` and persists nothing; creating a
ShipmentStatus with a missing parent detects it but — the 404 being caught by
the module's blanket `except` — surfaces as a 500 `database_error` (nothing
persisted); creating a WarehouseLog performs no handler-level check and fails
only through the store's foreign-key constraint, surfaced as a 500
`database_error` (nothing persisted). -/
theorem c1_amended_parent_checks (db : DB) (estado : EstadoEnvioCreate)
    (dev : DevolucionCreate) (det : DevolucionDetalleCreate) (log : LogBodegaCreate) (now : Nat)
    (h1 : db.findEnvio estado.envio_id = none)
    (h2 : db.findEnvio dev.envio_id = none)
    (h3 : db.findDevolucion det.devolucion_id = none)
    (h4 : db.findBodega log.bodega_id = none ∨ db.findEmpleado log.empleado_id = none) :
    ((create_shipping_status db estado now).fst = db ∧
     errStatus (create_shipping_status db estado now).snd = some 500 ∧
     errKind (create_shipping_status db estado now).snd = some "database_error") ∧
    ((create_return db dev now).fst = db ∧
     errStatus (create_return db dev now).snd = some 404 ∧
     errKind (create_return db dev now).snd = some "not_found") ∧
    ((create_return_detail db det).fst = db ∧
     errStatus (create_return_detail db det).snd = some 404 ∧
     errKind (create_return_detail db det).snd = some "not_found") ∧
    ((create_warehouse_log db log now).fst = db ∧
     errStatus (create_warehouse_log db log now).snd = some 500 ∧
     errKind (create_warehouse_log db log now).snd = some "database_error") := by
  refine ⟨?_, ?_, ?_, ?_⟩
  · simp [create_shipping_status, h1, errStatus, errKind, handle_db_error, notFound]
  · simp [create_return, h2, errStatus, errKind]
  · simp [create_return_detail, h3, errStatus, errKind]
  · rcases h4 with h | h <;>
      simp [create_warehouse_log, h, errStatus, errKind, handle_db_error]

/-- Witness for C1 (amended) on the empty store: every parent id 3 is absent. -/
theorem c1_amended_parent_checks_witness :
    (emptyDB.findEnvio estadoMissing.envio_id = none ∧
     emptyDB.findEnvio devolucionMissing.envio_id = none ∧
     emptyDB.findDevolucion detalleMissing.devolucion_id = none ∧
     (emptyDB.findBodega logMissing.bodega_id = none ∨
      emptyDB.findEmpleado logMissing.empleado_id = none)) ∧
    (((create_shipping_status emptyDB estadoMissing 0).fst = emptyDB ∧
      errStatus (create_shipping_status emptyDB estadoMissing 0).snd = some 500 ∧
      errKind (create_shipping_status emptyDB estadoMissing 0).snd = some "database_error") ∧
     ((create_return emptyDB devolucionMissing 0).fst = emptyDB ∧
      errStatus (create_return emptyDB devolucionMissing 0).snd = some 404 ∧
      errKind (create_return emptyDB devolucionMissing 0).snd = some "not_found") ∧
     ((create_return_detail emptyDB detalleMissing).fst = emptyDB ∧
      errStatus (create_return_detail emptyDB detalleMissing).snd = some 404 ∧
      errKind (create_return_detail emptyDB detalleMissing).snd = some "not_found") ∧
     ((create_warehouse_log emptyDB logMissing 0).fst = emptyDB ∧
      errStatus (create_warehouse_log emptyDB logMissing 0).snd = some 500 ∧
      errKind (create_warehouse_log emptyDB logMissing 0).snd = some "database_error")) :=
  ⟨⟨rfl, rfl, rfl, Or.inl rfl⟩,
   c1_amended_parent_checks emptyDB estadoMissing devolucionMissing detalleMissing logMissing 0
     rfl rfl rfl (Or.inl rfl)⟩

/-- Claim C2 (amended): `create_shipping` runs as *two* transactions.  A
failure at the first commit leaves the store unchanged; a failure at the
second commit leaves the already-committed `Envio` row behind with no status
row (partial state); only a fully successful run adds both rows. -/
theorem c2_amended_two_transactions (db : DB) (req : EnvioCreate) (cands : List String)
    (ne : String) (ns : Nat) (code : String) (m : MetodoEnvioRow)
    (hc : pickTrackingCode db cands = some code)
    (hm : db.findMetodo req.metodo_envio_id = some m) :
    create_shipping db req cands ne ns true false =
      some (db, .err (handle_db_error (.fault "commit failed") "crear envío")) ∧
    create_shipping db req cands ne ns false true =
      some ({ db with envios := db.envios ++ [envioRowOf db req ne code]
                    , next_envio_id := db.next_envio_id + 1 }
           , .err (handle_db_error (.fault "commit failed") "crear envío")) ∧
    create_shipping db req cands ne ns false false =
      some ({ db with envios := db.envios ++ [envioRowOf db req ne code]
                    , estados := db.estados ++ [estadoInicialOf db db.next_envio_id ns]
                    , next_envio_id := db.next_envio_id + 1
                    , next_estado_id := db.next_estado_id + 1 }
           , .ok (envioToSchema (envioRowOf db req ne code))) := by
  refine ⟨?_, ?_, ?_⟩ <;>
    simp [create_shipping, hc, hm, envioRowOf, estadoInicialOf]

/-- Witness for C2 (amended) on the one-method store. -/
theorem c2_amended_two_transactions_witness :
    create_shipping dbMetodo reqEnvio ["AAAAAAAA000000000000"] "2025-01-01 00:00:00" 1 true false =
      some (dbMetodo, .err (handle_db_error (.fault "commit failed") "crear envío")) ∧
    create_shipping dbMetodo reqEnvio ["AAAAAAAA000000000000"] "2025-01-01 00:00:00" 1 false true =
      some ({ dbMetodo with
                envios := dbMetodo.envios ++
                  [envioRowOf dbMetodo reqEnvio "2025-01-01 00:00:00" "AAAAAAAA000000000000"]
              , next_envio_id := dbMetodo.next_envio_id + 1 }
           , .err (handle_db_error (.fault "commit failed") "crear envío")) ∧
    create_shipping dbMetodo reqEnvio ["AAAAAAAA000000000000"] "2025-01-01 00:00:00" 1 false false =
      some ({ dbMetodo with
                envios := dbMetodo.envios ++
                  [envioRowOf dbMetodo reqEnvio "2025-01-01 00:00:00" "AAAAAAAA000000000000"]
              , estados := dbMetodo.estados ++
                  [estadoInicialOf dbMetodo dbMetodo.next_envio_id 1]
              , next_envio_id := dbMetodo.next_envio_id + 1
              , next_estado_id := dbMetodo.next_estado_id + 1 }
           , .ok (envioToSchema (envioRowOf dbMetodo reqEnvio "2025-01-01 00:00:00" "AAAAAAAA000000000000"))) :=
  c2_amended_two_transactions dbMetodo reqEnvio ["AAAAAAAA000000000000"] "2025-01-01 00:00:00" 1
    "AAAAAAAA000000000000" metodo1 (by decide) (by decide)

/-- Claim C5 (amended): on *create* the tracking code is indeed server-side —
the create schema has no code field and the stored code is drawn from the
generator's candidate stream, fresh with respect to the store.  On *update*,
however, `EnvioUpdate` exposes `codigo_rastreo` and the handler stores a
caller-chosen value; global uniqueness is nevertheless preserved after every
update because the store's UNIQUE constraint rejects a duplicate (the handler
then rolls back and answers 500). -/
theorem c5_amended_tracking_code
    (db : DB) (req : EnvioCreate) (cands : List String) (ne : String) (ns : Nat)
    (code : String) (dbres : DB) (r : EnvioSchema)
    (hpick : pickTrackingCode db cands = some code)
    (hcreate : create_shipping db req cands ne ns false false = some (dbres, .ok r))
    (db2 : DB) (envio_id : Nat) (u : EnvioUpdate)
    (hids : uniqueIds db2) (hcodes : uniqueCodes db2) :
    (r.codigo_rastreo = some code ∧ code ∈ cands ∧ db.findEnvioByCodigo code = none) ∧
    uniqueCodes (update_shipping db2 envio_id u).fst := by
  constructor
  · have hmem : code ∈ cands := List.mem_of_find?_eq_some hpick
    have hnone : db.findEnvioByCodigo code = none := by
      have := List.find?_some hpick
      simpa [Option.isNone_iff_eq_none] using this
    refine ⟨?_, hmem, hnone⟩
    unfold create_shipping at hcreate
    rw [hpick] at hcreate
    simp only [Bool.false_eq_true, if_false] at hcreate
    by_cases hm : (db.findMetodo req.metodo_envio_id).isNone = true
    · rw [if_pos hm] at hcreate
      cases Option.some.inj hcreate
    · rw [if_neg hm] at hcreate
      obtain ⟨-, hr⟩ := Prod.mk.injEq .. ▸ Option.some.inj hcreate
      have : envioToSchema (envioRowOf db req ne code) = r := HandlerResult.ok.inj hr
      rw [← this]
      rfl
  · unfold update_shipping
    cases hfind : db2.findEnvio envio_id with
    | none => exact hcodes
    | some old =>
      have hold_mem : old ∈ db2.envios := List.mem_of_find?_eq_some hfind
      have hold_id : old.envio_id = envio_id := by
        have := List.find?_some hfind
        exact beq_iff_eq.mp this
      by_cases hfk : (u.metodo_envio_id.isSome &&
          (db2.findMetodo (applyEnvioUpdate old u).metodo_envio_id).isNone) = true
      · simp only [hfk, if_true]
        exact hcodes
      · simp only [hfk, if_false]
        by_cases hdup : (u.codigo_rastreo.isSome &&
            db2.envios.any (fun e => e.envio_id != envio_id &&
              e.codigo_rastreo == (applyEnvioUpdate old u).codigo_rastreo)) = true
        · simp only [hdup, if_true]
          exact hcodes
        · simp only [hdup, if_false]
          apply nodup_codes_replace db2.envios envio_id (applyEnvioUpdate old u) hids hcodes
          intro e he hne
          cases hcu : u.codigo_rastreo with
          | some c =>
            left
            rw [Bool.and_eq_true] at hdup
            push_neg at hdup
            have hany : db2.envios.any (fun e => e.envio_id != envio_id &&
                e.codigo_rastreo == (applyEnvioUpdate old u).codigo_rastreo) = false := by
              cases hval : db2.envios.any (fun e => e.envio_id != envio_id &&
                  e.codigo_rastreo == (applyEnvioUpdate old u).codigo_rastreo) with
              | false => rfl
              | true => exact absurd hval (hdup (by rw [hcu]; rfl))
            have := List.any_eq_false.mp hany e he
            rw [Bool.and_eq_true] at this
            push_neg at this
            intro heq
            apply this (by simpa using hne)
            rw [heq]
            simp
          | none =>
            have hmerged : (applyEnvioUpdate old u).codigo_rastreo = old.codigo_rastreo := by
              simp [applyEnvioUpdate, hcu]
            cases hoc : old.codigo_rastreo with
            | none => right; rw [hmerged, hoc]
            | some c =>
              left
              rw [hmerged, hoc]
              intro hec
              have := codes_unique_owner db2.envios hcodes old hold_mem c hoc e he hec
              rw [this, hold_id] at hne
              exact hne rfl

/-- Witness for C5 (amended): one concrete create draws the fresh code
`AAAAAAAA000000000000`, and one concrete client-code update preserves the
uniqueness of stored codes. -/
theorem c5_amended_tracking_code_witness :
    (pickTrackingCode dbMetodo ["AAAAAAAA000000000000"] = some "AAAAAAAA000000000000" ∧
     uniqueIds dbEnvioA ∧ uniqueCodes dbEnvioA) ∧
    (((envioToSchema envioA).codigo_rastreo = some "AAAAAAAA000000000000" ∧
      "AAAAAAAA000000000000" ∈ ["AAAAAAAA000000000000"] ∧
      dbMetodo.findEnvioByCodigo "AAAAAAAA000000000000" = none) ∧
     uniqueCodes (update_shipping dbEnvioA 1 updateClientCode).fst) :=
  ⟨⟨by decide, by unfold uniqueIds; decide, by unfold uniqueCodes codes; decide⟩,
   c5_amended_tracking_code dbMetodo reqEnvio ["AAAAAAAA000000000000"] "2025-01-01 00:00:00" 1
     "AAAAAAAA000000000000" dbAfterCreate (envioToSchema envioA)
     (by decide) (by decide) dbEnvioA 1 updateClientCode
     (by unfold uniqueIds; decide) (by unfold uniqueCodes codes; decide)⟩

/-- Claim C6: every generated tracking code is 8 uppercase letters followed by
12 digits (20 characters), and the create handler only accepts a candidate
code that collides with no stored row (regenerating past collisions), so a
sequence of N successful creations adds N rows whose stored codes are pairwise
distinct. -/
theorem c6_tracking_code_pattern_unique :
    (∀ fL fD : Nat → Nat, matchesTrackingPattern (generate_tracking_code fL fD) = true) ∧
    (∀ (db : DB) (reqs : List (EnvioCreate × List String × String × Nat)) (dbN : DB)
        (rs : List (HandlerResult EnvioSchema)),
      create_shipping_many db reqs = some (dbN, rs) →
      uniqueCodes db →
      (∀ r ∈ rs, r.isOk = true) →
      uniqueCodes dbN ∧ dbN.envios.length = db.envios.length + reqs.length) := by
  constructor
  · exact generate_tracking_code_pattern
  · intro db reqs
    induction reqs generalizing db with
    | nil =>
      intro dbN rs h hu _
      unfold create_shipping_many at h
      obtain ⟨hdb, -⟩ := Prod.mk.injEq .. ▸ Option.some.inj h
      rw [← hdb]
      exact ⟨hu, by simp⟩
    | cons head tail ih =>
      intro dbN rs h hu hall
      obtain ⟨req, cands, ne2, ns2⟩ := head
      unfold create_shipping_many at h
      cases h1 : create_shipping db req cands ne2 ns2 false false with
      | none => rw [h1] at h; cases h
      | some p =>
        obtain ⟨db1, r⟩ := p
        rw [h1] at h
        dsimp only at h
        cases h2 : create_shipping_many db1 tail with
        | none => rw [h2] at h; cases h
        | some q =>
          obtain ⟨db2, rs2⟩ := q
          rw [h2] at h
          dsimp only at h
          obtain ⟨hdbN, hrs⟩ := Prod.mk.injEq .. ▸ Option.some.inj h
          obtain ⟨hu1, hlen1, -⟩ :=
            create_shipping_preserves_unique db req cands ne2 ns2 db1 r h1 hu
          have hokr : r.isOk = true := by
            apply hall
            rw [← hrs]
            exact List.mem_cons_self r rs2
          have hrest := ih db1 db2 rs2 h2 hu1 (fun x hx => by
            apply hall
            rw [← hrs]
            exact List.mem_cons_of_mem r hx)
          refine ⟨by rw [← hdbN]; exact hrest.1, ?_⟩
          rw [← hdbN, hrest.2, hlen1 hokr]
          simp [Nat.add_comm, Nat.add_assoc, Nat.add_left_comm]

/-- Witness for C6: two concrete creations, the second forced through the
collision-retry loop, yield two rows with distinct pattern-shaped codes. -/
theorem c6_tracking_code_pattern_unique_witness :
    (matchesTrackingPattern (generate_tracking_code (fun i => i) (fun i => i)) = true) ∧
    (create_shipping_many dbMetodo reqsTwo = some (dbAfterTwo, rsAfterTwo) ∧
     uniqueCodes dbMetodo ∧ (∀ r ∈ rsAfterTwo, r.isOk = true) ∧
     codes dbAfterTwo.envios = ["AAAAAAAA000000000000", "BBBBBBBB111111111111"]) ∧
    (uniqueCodes dbAfterTwo ∧
     dbAfterTwo.envios.length = dbMetodo.envios.length + reqsTwo.length) :=
  ⟨c6_tracking_code_pattern_unique.1 (fun i => i) (fun i => i),
   ⟨by decide, by unfold uniqueCodes codes; decide, by decide, by decide⟩,
   c6_tracking_code_pattern_unique.2 dbMetodo reqsTwo dbAfterTwo rsAfterTwo
     (by decide) (by unfold uniqueCodes codes; decide) (by decide)⟩

/-- Claim C7: a successful partial update modifies exactly the fields present
in the request body: absent fields keep their prior value, present fields take
the supplied value, the stored row becomes the field-level merge of the old
row and the request, other tables are untouched, and the returned record is
the merged row's public shape.  Shown for the two entities the specification
cites, Shipment (`update_shipping`) and Employee (`update_employee`). -/
theorem c7_update_field_merge
    (db1 : DB) (id1 : Nat) (u1 : EnvioUpdate) (old1 : EnvioRow) (r1 : EnvioSchema)
    (h1 : db1.findEnvio id1 = some old1)
    (hok1 : (update_shipping db1 id1 u1).snd = .ok r1)
    (db2 : DB) (id2 : Nat) (u2 : EmpleadoUpdate) (hashFn : String → String)
    (old2 : EmpleadoRow) (r2 : EmpleadoSchema)
    (h2 : db2.findEmpleado id2 = some old2)
    (hok2 : (update_employee db2 id2 u2 hashFn).snd = .ok r2) :
    (r1 = envioToSchema (applyEnvioUpdate old1 u1) ∧
     (update_shipping db1 id1 u1).fst.envios = replaceEnvio db1.envios id1 (applyEnvioUpdate old1 u1) ∧
     (update_shipping db1 id1 u1).fst.estados = db1.estados ∧
     (update_shipping db1 id1 u1).fst.empleados = db1.empleados ∧
     (u1.pedido_id = none → r1.pedido_id = old1.pedido_id) ∧
     (u1.direccion_id = none → r1.direccion_id = old1.direccion_id) ∧
     (u1.metodo_envio_id = none → r1.metodo_envio_id = old1.metodo_envio_id) ∧
     (u1.fecha_envio = none → r1.fecha_envio = old1.fecha_envio) ∧
     (u1.fecha_estimada_entrega = none → r1.fecha_estimada_entrega = old1.fecha_estimada_entrega) ∧
     (u1.codigo_rastreo = none → r1.codigo_rastreo = old1.codigo_rastreo) ∧
     (∀ v, u1.pedido_id = some v → r1.pedido_id = v) ∧
     (∀ v, u1.direccion_id = some v → r1.direccion_id = v) ∧
     (∀ v, u1.metodo_envio_id = some v → r1.metodo_envio_id = v) ∧
     (∀ v, u1.fecha_envio = some v → r1.fecha_envio = v) ∧
     (∀ v, u1.fecha_estimada_entrega = some v → r1.fecha_estimada_entrega = some v) ∧
     (∀ v, u1.codigo_rastreo = some v → r1.codigo_rastreo = some v)) ∧
    (r2 = empleadoToSchema (applyEmpleadoUpdate old2 u2 hashFn) ∧
     (update_employee db2 id2 u2 hashFn).fst.empleados =
       replaceEmpleado db2.empleados id2 (applyEmpleadoUpdate old2 u2 hashFn) ∧
     (update_employee db2 id2 u2 hashFn).fst.envios = db2.envios ∧
     (u2.nombre = none → r2.nombre = old2.nombre) ∧
     (u2.apellido1 = none → r2.apellido1 = old2.apellido1) ∧
     (u2.apellido2 = none → r2.apellido2 = old2.apellido2) ∧
     (u2.telefono = none → r2.telefono = old2.telefono) ∧
     (u2.email = none → r2.email = old2.email) ∧
     (u2.puesto = none → r2.puesto = old2.puesto) ∧
     (u2.area = none → r2.area = old2.area) ∧
     (u2.contrasena = none →
       (applyEmpleadoUpdate old2 u2 hashFn).contrasena = old2.contrasena) ∧
     (∀ v, u2.nombre = some v → r2.nombre = v) ∧
     (∀ v, u2.email = some v → r2.email = v)) := by
  constructor
  · unfold update_shipping at hok1 ⊢
    rw [h1] at hok1 ⊢
    dsimp only at hok1 ⊢
    by_cases hfk : (u1.metodo_envio_id.isSome &&
        (db1.findMetodo (applyEnvioUpdate old1 u1).metodo_envio_id).isNone) = true
    · simp only [hfk, if_true] at hok1
      cases hok1
    · simp only [hfk, if_false] at hok1 ⊢
      by_cases hdup : (u1.codigo_rastreo.isSome &&
          db1.envios.any (fun e => e.envio_id != id1 &&
            e.codigo_rastreo == (applyEnvioUpdate old1 u1).codigo_rastreo)) = true
      · simp only [hdup, if_true] at hok1
        cases hok1
      · simp only [hdup, if_false] at hok1 ⊢
        have hr : r1 = envioToSchema (applyEnvioUpdate old1 u1) :=
          (HandlerResult.ok.inj hok1).symm
        subst hr
        refine ⟨rfl, rfl, rfl, rfl, ?_, ?_, ?_, ?_, ?_, ?_, ?_, ?_, ?_, ?_, ?_, ?_⟩ <;>
          first
            | (intro hn; simp [envioToSchema, applyEnvioUpdate, hn])
            | (intro v hv; simp [envioToSchema, applyEnvioUpdate, hv])
  · unfold update_employee at hok2 ⊢
    rw [h2] at hok2 ⊢
    dsimp only at hok2 ⊢
    have hr : r2 = empleadoToSchema (applyEmpleadoUpdate old2 u2 hashFn) :=
      (HandlerResult.ok.inj hok2).symm
    subst hr
    refine ⟨rfl, rfl, rfl, ?_, ?_, ?_, ?_, ?_, ?_, ?_, ?_, ?_, ?_⟩ <;>
      first
        | (intro hn; simp [empleadoToSchema, applyEmpleadoUpdate, hn])
        | (intro v hv; simp [empleadoToSchema, applyEmpleadoUpdate, hv])

/-- Witness for C7: updating only `pedido_id` of shipment 1 keeps
`direccion_id` and sets `pedido_id` to 9; updating only `nombre` of employee 1
keeps `email` and sets `nombre`. -/
theorem c7_update_field_merge_witness :
    dbEnvioA.findEnvio 1 = some envioA ∧
    dbAna.findEmpleado 1 = some empleadoAna ∧
    (envioToSchema (applyEnvioUpdate envioA updateOnlyPedido)).direccion_id = envioA.direccion_id ∧
    (envioToSchema (applyEnvioUpdate envioA updateOnlyPedido)).pedido_id = 9 ∧
    (empleadoToSchema (applyEmpleadoUpdate empleadoAna updateOnlyNombre hashDemo)).email = empleadoAna.email ∧
    (empleadoToSchema (applyEmpleadoUpdate empleadoAna updateOnlyNombre hashDemo)).nombre = "Maria" := by
  have h := c7_update_field_merge dbEnvioA 1 updateOnlyPedido envioA
    (envioToSchema (applyEnvioUpdate envioA updateOnlyPedido)) (by decide) (by decide)
    dbAna 1 updateOnlyNombre hashDemo empleadoAna
    (empleadoToSchema (applyEmpleadoUpdate empleadoAna updateOnlyNombre hashDemo)) (by decide) (by decide)
  obtain ⟨⟨-, -, -, -, -, hdir, -, -, -, -, hped, -, -, -, -, -⟩,
          ⟨-, -, -, hnom, -, -, -, hmail, -, -, -, hsetnom, -⟩⟩ := h
  exact ⟨by decide, by decide, hdir rfl, hped 9 rfl, hmail rfl, hsetnom "Maria" rfl⟩

/-- Claim C8: for a tracking code that resolves to an existing shipment,
`track_shipping` answers with exactly that shipment's status rows (a
permutation of the filtered table) ordered by `fecha` descending, most recent
first. -/
theorem c8_track_sorted_desc (db : DB) (code : String) (envio : EnvioRow)
    (h : db.findEnvioByCodigo code = some envio) :
    track_shipping db code =
      .ok (((db.estados.filter (fun s => s.envio_id == envio.envio_id)).insertionSort fechaDesc).map estadoToSchema) ∧
    List.Pairwise (fun a b : EstadoEnvioSchema => b.fecha ≤ a.fecha)
      (((db.estados.filter (fun s => s.envio_id == envio.envio_id)).insertionSort fechaDesc).map estadoToSchema) ∧
    List.Perm
      (((db.estados.filter (fun s => s.envio_id == envio.envio_id)).insertionSort fechaDesc).map estadoToSchema)
      ((db.estados.filter (fun s => s.envio_id == envio.envio_id)).map estadoToSchema) := by
  refine ⟨?_, ?_, ?_⟩
  · unfold track_shipping
    rw [h]
  · exact List.Pairwise.map estadoToSchema (fun a b hab => hab)
      (List.sorted_insertionSort fechaDesc _)
  · exact List.Perm.map estadoToSchema (List.perm_insertionSort fechaDesc _)

/-- Witness for C8: three statuses recorded at times 1 < 2 < 3 come back as
[T3, T2, T1]. -/
theorem c8_track_sorted_desc_witness :
    dbTrack.findEnvioByCodigo "AAAAAAAA000000000000" = some envioA ∧
    track_shipping dbTrack "AAAAAAAA000000000000" =
      .ok [estadoToSchema estadoT3, estadoToSchema estadoT2, estadoToSchema estadoT1] ∧
    (track_shipping dbTrack "AAAAAAAA000000000000" =
       .ok (((dbTrack.estados.filter (fun s => s.envio_id == envioA.envio_id)).insertionSort fechaDesc).map estadoToSchema) ∧
     List.Pairwise (fun a b : EstadoEnvioSchema => b.fecha ≤ a.fecha)
       (((dbTrack.estados.filter (fun s => s.envio_id == envioA.envio_id)).insertionSort fechaDesc).map estadoToSchema) ∧
     List.Perm
       (((dbTrack.estados.filter (fun s => s.envio_id == envioA.envio_id)).insertionSort fechaDesc).map estadoToSchema)
       ((dbTrack.estados.filter (fun s => s.envio_id == envioA.envio_id)).map estadoToSchema)) :=
  ⟨by decide, by decide,
   c8_track_sorted_desc dbTrack "AAAAAAAA000000000000" envioA (by decide)⟩

/-- Claim C9 (amended): numeric filters are guarded by Python truthiness, so a
supplied *positive* value filters by exact match while a supplied `0` is
ignored (it still counts as a supplied parameter for the empty-criteria
check); with every supplied numeric filter positive, the search returns
exactly the rows matching all supplied filters, paginated.  String filters
(`ilike`) select by case-insensitive substring match. -/
theorem c9_amended_search_filters :
    (∀ (db : DB) (d p c : Option Nat) (skip limit : Nat),
      (d = none ∨ ∃ n, d = some n ∧ 0 < n) →
      (p = none ∨ ∃ n, p = some n ∧ 0 < n) →
      (c = none ∨ ∃ n, c = some n ∧ 0 < n) →
      ¬(d = none ∧ p = none ∧ c = none) →
      search_return_details db d p c skip limit =
        .ok ((((db.detalles.filter (fun row =>
            optMatch d row.devolucion_id && optMatch p row.producto_id &&
            optMatch c row.cantidad)).drop skip).take limit).map detalleToSchema)) ∧
    (∀ (db : DB) (cod : String) (skip limit : Nat), cod ≠ "" →
      search_shippings_range db none none none none none none none (some cod) skip limit =
        .ok ((((db.envios.filter (fun e =>
            match e.codigo_rastreo with
            | some s => icontains s cod
            | none => false)).drop skip).take limit).map envioToSchema)) := by
  constructor
  · intro db d p c skip limit hd hp hc hnot
    rcases hd with rfl | ⟨dn, rfl, hdn⟩ <;>
      rcases hp with rfl | ⟨pn, rfl, hpn⟩ <;>
        rcases hc with rfl | ⟨cn, rfl, hcn⟩
    · exact absurd ⟨rfl, rfl, rfl⟩ hnot
    · have hcn2 : cn ≠ 0 := Nat.pos_iff_ne_zero.mp hcn
      simp only [search_return_details]
      rw [if_neg (by simp)]
      rw [filterNatTruthy_none, filterNatTruthy_none, filterNatTruthy_pos _ _ hcn2]
      have hfilter : db.detalles.filter (fun row => row.cantidad == cn) =
          db.detalles.filter (fun row =>
            optMatch none row.devolucion_id && optMatch none row.producto_id &&
            optMatch (some cn) row.cantidad) :=
        List.filter_congr (fun row _ => by simp [optMatch])
      rw [hfilter]
    · have hpn2 : pn ≠ 0 := Nat.pos_iff_ne_zero.mp hpn
      simp only [search_return_details]
      rw [if_neg (by simp)]
      rw [filterNatTruthy_none, filterNatTruthy_pos _ _ hpn2, filterNatTruthy_none]
      have hfilter : db.detalles.filter (fun row => row.producto_id == pn) =
          db.detalles.filter (fun row =>
            optMatch none row.devolucion_id && optMatch (some pn) row.producto_id &&
            optMatch none row.cantidad) :=
        List.filter_congr (fun row _ => by simp [optMatch])
      rw [hfilter]
    · have hpn2 : pn ≠ 0 := Nat.pos_iff_ne_zero.mp hpn
      have hcn2 : cn ≠ 0 := Nat.pos_iff_ne_zero.mp hcn
      simp only [search_return_details]
      rw [if_neg (by simp)]
      rw [filterNatTruthy_none, filterNatTruthy_pos _ _ hpn2, filterNatTruthy_pos _ _ hcn2]
      rw [List.filter_filter]
      have hfilter : db.detalles.filter (fun row =>
            (row.cantidad == cn) && (row.producto_id == pn)) =
          db.detalles.filter (fun row =>
            optMatch none row.devolucion_id && optMatch (some pn) row.producto_id &&
            optMatch (some cn) row.cantidad) :=
        List.filter_congr (fun row _ => by
          cases h2 : (row.producto_id == pn) <;> cases h3 : (row.cantidad == cn) <;>
            simp [optMatch, h2, h3])
      rw [hfilter]
    · have hdn2 : dn ≠ 0 := Nat.pos_iff_ne_zero.mp hdn
      simp only [search_return_details]
      rw [if_neg (by simp)]
      rw [filterNatTruthy_pos _ _ hdn2, filterNatTruthy_none, filterNatTruthy_none]
      have hfilter : db.detalles.filter (fun row => row.devolucion_id == dn) =
          db.detalles.filter (fun row =>
            optMatch (some dn) row.devolucion_id && optMatch none row.producto_id &&
            optMatch none row.cantidad) :=
        List.filter_congr (fun row _ => by simp [optMatch])
      rw [hfilter]
    · have hdn2 : dn ≠ 0 := Nat.pos_iff_ne_zero.mp hdn
      have hcn2 : cn ≠ 0 := Nat.pos_iff_ne_zero.mp hcn
      simp only [search_return_details]
      rw [if_neg (by simp)]
      rw [filterNatTruthy_pos _ _ hdn2, filterNatTruthy_none, filterNatTruthy_pos _ _ hcn2]
      rw [List.filter_filter]
      have hfilter : db.detalles.filter (fun row =>
            (row.cantidad == cn) && (row.devolucion_id == dn)) =
          db.detalles.filter (fun row =>
            optMatch (some dn) row.devolucion_id && optMatch none row.producto_id &&
            optMatch (some cn) row.cantidad) :=
        List.filter_congr (fun row _ => by
          cases h1 : (row.devolucion_id == dn) <;> cases h3 : (row.cantidad == cn) <;>
            simp [optMatch, h1, h3])
      rw [hfilter]
    · have hdn2 : dn ≠ 0 := Nat.pos_iff_ne_zero.mp hdn
      have hpn2 : pn ≠ 0 := Nat.pos_iff_ne_zero.mp hpn
      simp only [search_return_details]
      rw [if_neg (by simp)]
      rw [filterNatTruthy_pos _ _ hdn2, filterNatTruthy_pos _ _ hpn2, filterNatTruthy_none]
      rw [List.filter_filter]
      have hfilter : db.detalles.filter (fun row =>
            (row.producto_id == pn) && (row.devolucion_id == dn)) =
          db.detalles.filter (fun row =>
            optMatch (some dn) row.devolucion_id && optMatch (some pn) row.producto_id &&
            optMatch none row.cantidad) :=
        List.filter_congr (fun row _ => by
          cases h1 : (row.devolucion_id == dn) <;> cases h2 : (row.producto_id == pn) <;>
            simp [optMatch, h1, h2])
      rw [hfilter]
    · have hdn2 : dn ≠ 0 := Nat.pos_iff_ne_zero.mp hdn
      have hpn2 : pn ≠ 0 := Nat.pos_iff_ne_zero.mp hpn
      have hcn2 : cn ≠ 0 := Nat.pos_iff_ne_zero.mp hcn
      simp only [search_return_details]
      rw [if_neg (by simp)]
      rw [filterNatTruthy_pos _ _ hdn2, filterNatTruthy_pos _ _ hpn2, filterNatTruthy_pos _ _ hcn2]
      rw [List.filter_filter, List.filter_filter]
      have hfilter : db.detalles.filter (fun row =>
            ((row.cantidad == cn) && (row.producto_id == pn)) && (row.devolucion_id == dn)) =
          db.detalles.filter (fun row =>
            optMatch (some dn) row.devolucion_id && optMatch (some pn) row.producto_id &&
            optMatch (some cn) row.cantidad) :=
        List.filter_congr (fun row _ => by
          cases h1 : (row.devolucion_id == dn) <;> cases h2 : (row.producto_id == pn) <;>
            cases h3 : (row.cantidad == cn) <;> simp [optMatch, h1, h2, h3])
      rw [hfilter]
  · intro db cod skip limit hcod
    simp only [search_shippings_range]
    rw [if_neg (by simp)]
    rw [filterNatTruthy_none, filterNatTruthy_none, filterNatTruthy_none,
        filterStrTruthy_none, filterStrTruthy_none, filterStrTruthy_none, filterStrTruthy_none,
        filterStrTruthy_some _ _ hcod]

/-- Witness for C9 (amended): on the one-line-item store, filtering with
`devolucion_id=1` and `cantidad=5` returns exactly the matching row, and the
substring search on a lowercase tracking-code fragment returns the matching
shipment. -/
theorem c9_amended_search_filters_witness :
    ((some 1 : Option Nat) = none ∨ ∃ n, (some 1 : Option Nat) = some n ∧ 0 < n) ∧
    ¬((some 1 : Option Nat) = none ∧ (none : Option Nat) = none ∧ (some 5 : Option Nat) = none) ∧
    (search_return_details dbDetalle (some 1) none (some 5) 0 100 =
      .ok ((((dbDetalle.detalles.filter (fun row =>
          optMatch (some 1) row.devolucion_id && optMatch none row.producto_id &&
          optMatch (some 5) row.cantidad)).drop 0).take 100).map detalleToSchema)) ∧
    (search_shippings_range dbEnvioA none none none none none none none (some "aaaa") 0 100 =
      .ok ((((dbEnvioA.envios.filter (fun e =>
          match e.codigo_rastreo with
          | some s => icontains s "aaaa"
          | none => false)).drop 0).take 100).map envioToSchema)) ∧
    search_return_details dbDetalle (some 1) none (some 5) 0 100 = .ok [detalleToSchema detalle5] ∧
    search_shippings_range dbEnvioA none none none none none none none (some "aaaa") 0 100 =
      .ok [envioToSchema envioA] :=
  ⟨Or.inr ⟨1, rfl, by decide⟩, by simp,
   c9_amended_search_filters.1 dbDetalle (some 1) none (some 5) 0 100
     (Or.inr ⟨1, rfl, by decide⟩) (Or.inl rfl) (Or.inr ⟨5, rfl, by decide⟩) (by simp),
   c9_amended_search_filters.2 dbEnvioA "aaaa" 0 100 (by decide),
   by decide, by decide⟩

/-- Claim C10: every Employee read path (list, get-by-id, search) and the
responses of create and update are invariant under replacing the stored
password hashes — two stores that differ only in some employee's `contrasena`
produce identical responses, and the public schema exposes exactly the eight
non-secret fields (no `contrasena` field exists on `EmpleadoSchema`). -/
theorem c10_employee_no_password_exposure :
    (∀ (db : DB) (f : EmpleadoRow → String) (skip limit : Nat),
      get_employees (scrubEmpleados f db) skip limit = get_employees db skip limit) ∧
    (∀ (db : DB) (f : EmpleadoRow → String) (id : Nat),
      get_employee (scrubEmpleados f db) id = get_employee db id) ∧
    (∀ (db : DB) (f : EmpleadoRow → String) (nombre apellido1 apellido2 email : Option String)
        (puesto : Option Puesto) (area : Option Area) (skip limit : Nat),
      search_employees (scrubEmpleados f db) nombre apellido1 apellido2 email puesto area skip limit =
        search_employees db nombre apellido1 apellido2 email puesto area skip limit) ∧
    (∀ (db : DB) (f : EmpleadoRow → String) (id : Nat) (u : EmpleadoUpdate)
        (hashFn : String → String),
      (update_employee (scrubEmpleados f db) id u hashFn).snd =
        (update_employee db id u hashFn).snd) ∧
    (∀ (db : DB) (emp : EmpleadoCreate) (hash1 hash2 : String → String),
      (create_employee db emp hash1).snd = (create_employee db emp hash2).snd) := by
  refine ⟨?_, ?_, ?_, ?_, ?_⟩
  · intro db f skip limit
    unfold get_employees scrubEmpleados
    dsimp only
    rw [← List.map_drop, ← List.map_take, List.map_map]
    exact congrArg HandlerResult.ok (List.map_congr_left (fun e _ => rfl))
  · intro db f id
    unfold get_employee
    rw [findEmpleado_scrub]
    cases hfe : db.findEmpleado id with
    | none => simp [hfe]
    | some e => simp [hfe, empleadoToSchema]
  · intro db f nombre apellido1 apellido2 email puesto area skip limit
    by_cases hall : (nombre.isNone && apellido1.isNone && apellido2.isNone && email.isNone &&
        puesto.isNone && area.isNone) = true
    · unfold search_employees
      rw [if_pos hall, if_pos hall]
    · unfold search_employees
      rw [if_neg hall, if_neg hall]
      dsimp only [scrubEmpleados]
      rw [filterStrTruthy_map_comm _ (fun e : EmpleadoRow => { e with contrasena := f e })
            nombre (fun s e => icontains e.nombre s) (fun s e => rfl),
          filterStrTruthy_map_comm _ (fun e : EmpleadoRow => { e with contrasena := f e })
            apellido1 (fun s e => icontains e.apellido1 s) (fun s e => rfl),
          filterStrTruthy_map_comm _ (fun e : EmpleadoRow => { e with contrasena := f e })
            apellido2 (fun s e => icontains e.apellido2 s) (fun s e => rfl),
          filterStrTruthy_map_comm _ (fun e : EmpleadoRow => { e with contrasena := f e })
            email (fun s e => icontains e.email s) (fun s e => rfl),
          filterSome_map_comm _ (fun e : EmpleadoRow => { e with contrasena := f e })
            puesto (fun p e => decide (e.puesto = p)) (fun b e => rfl),
          filterSome_map_comm _ (fun e : EmpleadoRow => { e with contrasena := f e })
            area (fun a e => decide (e.area = a)) (fun b e => rfl),
          ← List.map_drop, ← List.map_take, List.map_map]
      exact congrArg HandlerResult.ok (List.map_congr_left (fun e _ => rfl))
  · intro db f id u hashFn
    unfold update_employee
    rw [findEmpleado_scrub]
    cases hfe : db.findEmpleado id with
    | none => simp [hfe]
    | some e => simp [hfe, empleadoToSchema, applyEmpleadoUpdate, replaceEmpleado]
  · intro db emp hash1 hash2
    rfl
